import Mathlib

/-!
# Leonid front-end scripts: session and request layer

A shallow embedding of the request helpers and submit handlers of
`Frontend/scripts/chat.js`, `Frontend/scripts/login.js` and
`Frontend/scripts/register.js`.

* JavaScript values are the inductive type `JVal`. A number is given by the
  text `String` yields for it, which is all the scripts observe of a number
  besides its truthiness; strings are sequences of Unicode characters.
* ToString is partial: `JVal.jsString` is `none` where JavaScript throws a
  TypeError, and the scripts throw that error at the conversion.
* Browser built-ins whose behaviour the scripts only call (`JSON.parse`,
  `String.prototype.trim`, `toLowerCase`, the regular-expression engine) are
  fields of `Platform`; the network is a `Transport`, which answers a request
  with a response, fails, or never answers.
* Browser state (localStorage, pending timers, the DOM nodes the handlers
  write) is the record `World`, together with the ordered list `calls` of the
  platform calls made so far.
* An `async` function is a `Script`: a function from a world to a completion
  (returned, threw, or never settles) and the world it leaves.

The time stamp of a chat bubble, the redirect of chat.js at page load and the
scripts `cookie-notice.js` and `scripts/client.js` take no part in the
properties below and are left out.
-/

namespace Leonid

/-! ## JavaScript values -/

/-- JavaScript values as produced by `JSON.parse`, plus `undefined`. The
argument of `num` is the text `String` yields for the number (`0` for both
zeros, `1e+21`, `-2.5`); JSON has no NaN. -/
inductive JVal where
  | undefined : JVal
  | null : JVal
  | bool (b : Bool) : JVal
  | num (repr : String) : JVal
  | str (s : String) : JVal
  | arr (items : List JVal) : JVal
  | obj (fields : List (String × JVal)) : JVal

/-- ToBoolean: the values that are not `undefined`, `null`, `false`, `0`, `""`. -/
def JVal.truthy : JVal → Bool
  | .undefined => false
  | .null => false
  | .bool b => b
  | .num repr => decide (repr ≠ "0")
  | .str s => decide (s ≠ "")
  | .arr _ => true
  | .obj _ => true

/-- The operator `a || b`. -/
def JVal.or (a b : JVal) : JVal :=
  if a.truthy then a else b

/-- The operator `a ?? b`. -/
def JVal.coalesce (a b : JVal) : JVal :=
  match a with
  | .undefined => b
  | .null => b
  | v => v

/-- Lookup of an own property in the field list of an object. -/
def lookupField (k : String) : List (String × JVal) → JVal
  | [] => .undefined
  | (k', v) :: rest => if k' = k then v else lookupField k rest

/-- Property read `v?.k` for the keys the scripts use (`detail`, `message`,
`reply`, `access_token`): only plain objects carry them. -/
def JVal.prop (v : JVal) (k : String) : JVal :=
  match v with
  | .obj fields => lookupField k fields
  | _ => .undefined

/-- The test `typeof v === "object"`. -/
def JVal.typeofObject : JVal → Bool
  | .null => true
  | .arr _ => true
  | .obj _ => true
  | _ => false

/-- Whether an object has an own property of a name. -/
def hasOwn (k : String) : List (String × JVal) → Bool
  | [] => false
  | (k', _) :: rest => decide (k' = k) || hasOwn k rest

mutual
/-- ToString, as applied by `String(v)`, `new Error(v)`, template literals and
DOM string attributes; `none` where it throws a TypeError. A parsed object has
the string form `[object Object]` unless it has an own property `toString`:
that property is not callable, and `valueOf` yields no primitive. -/
def JVal.jsString : JVal → Option String
  | .undefined => some "undefined"
  | .null => some "null"
  | .bool true => some "true"
  | .bool false => some "false"
  | .num repr => some repr
  | .str s => some s
  | .arr items => joinItems items
  | .obj fields => if hasOwn "toString" fields then none else some "[object Object]"
/-- Array.prototype.join with the separator ",". -/
def joinItems : List JVal → Option String
  | [] => some ""
  | [x] => itemString x
  | x :: y :: rest =>
    match itemString x with
    | none => none
    | some a =>
      match joinItems (y :: rest) with
      | none => none
      | some b => some (a ++ "," ++ b)
/-- The text of one array element inside `join`: nullish elements are empty. -/
def itemString : JVal → Option String
  | .undefined => some ""
  | .null => some ""
  | .bool true => some "true"
  | .bool false => some "false"
  | .num repr => some repr
  | .str s => some s
  | .arr items => joinItems items
  | .obj fields => if hasOwn "toString" fields then none else some "[object Object]"
end

/-! ## Platform, errors, requests -/

/-- Browser built-ins the scripts call. `jsonParse` is `JSON.parse` (`none`
when it throws), `trim` and `toLowerCase` are the String methods, `reTest src s`
is `new RegExp(src).test(s)` and `reReplaceAll src r s` is
`s.replace(new RegExp(src, "g"), r)`. -/
structure Platform where
  jsonParse : String → Option JVal
  trim : String → String
  toLowerCase : String → String
  reTest : String → String → Bool
  reReplaceAll : String → String → String → String

/-- An Error object: `name`, `message`, and the `status` and `body` the request
helpers attach (`none` and `undefined` when they were never assigned). -/
structure JsError where
  name : String
  message : String
  status : Option Nat
  body : JVal

/-- The expression `new Error(text)`. -/
def mkError (text : String) : JsError :=
  { name := "Error", message := text, status := none, body := .undefined }

/-- The TypeError of a conversion to string that finds no primitive value. -/
def toPrimitiveError : JsError :=
  { name := "TypeError", message := "Cannot convert object to primitive value",
    status := none, body := .undefined }

/-- The rejection of a fetch whose signal was aborted. -/
def abortError : JsError :=
  { name := "AbortError", message := "The operation was aborted.", status := none,
    body := .undefined }

/-- The rejection of a fetch that failed at the network level. -/
def networkError (text : String) : JsError :=
  { name := "TypeError", message := text, status := none, body := .undefined }

/-- The init object given to `fetch`, with its url. `body` is the payload that
`JSON.stringify` serialises; `signal` is the AbortController it belongs to. -/
structure Request where
  url : String
  method : String
  headers : List (String × String)
  body : JVal
  signal : Option Nat
  credentials : Option String

/-- A settled response: its status and the text `resp.text()` yields. -/
structure Response where
  status : Nat
  text : String

/-- The getter `resp.ok`: the status is in the range 200 to 299. -/
def Response.ok (r : Response) : Bool :=
  decide (200 ≤ r.status) && decide (r.status < 300)

/-- What the network does with one request. -/
inductive FetchResult where
  | responds (resp : Response) : FetchResult
  | fails (text : String) : FetchResult
  | hangs : FetchResult

/-- The network seen from the page. -/
abbrev Transport := Request → FetchResult

/-- What a timer callback does when it fires. -/
inductive TimerAction where
  | abort (ctrl : Nat) : TimerAction
  | locationReplace (url : String) : TimerAction
  | locationAssign (url : String) : TimerAction
  deriving DecidableEq

/-- A pending `setTimeout`. -/
structure Timer where
  handle : Nat
  delay : Nat
  action : TimerAction
  deriving DecidableEq

/-- Platform calls, in the order the scripts make them. -/
inductive Call where
  | getItem (key : String) : Call
  | setItem (key value : String) : Call
  | removeItem (key : String) : Call
  | fetch (req : Request) : Call
  | setTimeout (handle delay : Nat) (action : TimerAction) : Call
  | clearTimeout (handle : Nat) : Call
  | consoleError (e : JsError) : Call

/-- The requests among a list of calls. -/
def fetchCalls : List Call → List Request
  | [] => []
  | .fetch r :: rest => r :: fetchCalls rest
  | _ :: rest => fetchCalls rest

/-- The localStorage keys read or written among a list of calls. -/
def storageKeys : List Call → List String
  | [] => []
  | .getItem k :: rest => k :: storageKeys rest
  | .setItem k _ :: rest => k :: storageKeys rest
  | .removeItem k :: rest => k :: storageKeys rest
  | _ :: rest => storageKeys rest

/-! ## Browser state -/

/-- One bubble of the chat: `user-message` or `ai-message`, and its text. -/
structure ChatMessage where
  role : String
  text : String
  deriving DecidableEq

/-- The notice element of the login and register forms. -/
structure Notice where
  display : String
  text : String
  color : String
  deriving DecidableEq

/-- The submit button of the login and register forms. -/
structure SubmitButton where
  disabled : Bool
  opacity : String
  value : String
  deriving DecidableEq

/-- Browser state the scripts read and write. `messages` and `input` are the
chat container and the message field (`none` when the element is missing),
`submitBtn` the submit button of a form. -/
structure World where
  storage : List (String × String)
  timers : List Timer
  nextHandle : Nat
  calls : List Call
  messages : Option (List ChatMessage)
  input : Option String
  notice : Notice
  submitBtn : Option SubmitButton

/-- The storage entry of a key. -/
def storageGet (k : String) : List (String × String) → Option String
  | [] => none
  | (k', v) :: rest => if k' = k then some v else storageGet k rest

/-- Storage without the entry of a key. -/
def storageRemove (k : String) : List (String × String) → List (String × String)
  | [] => []
  | (k', v) :: rest => if k' = k then storageRemove k rest else (k', v) :: storageRemove k rest

/-- Storage with the entry of a key set. -/
def storageSet (k v : String) (s : List (String × String)) : List (String × String) :=
  (k, v) :: storageRemove k s

/-! ## Scripts -/

/-- How the evaluation of a piece of script ends. -/
inductive Completion (α : Type) where
  | returned (v : α) : Completion α
  | threw (e : JsError) : Completion α
  | pending : Completion α

/-- A piece of script: from a world to its completion and the world it leaves. -/
def Script (α : Type) : Type := World → Completion α × World

/-- Sequencing of scripts. -/
def Script.bind {α β : Type} (m : Script α) (f : α → Script β) : Script β :=
  fun w =>
    match m w with
    | (.returned v, w1) => f v w1
    | (.threw e, w1) => (.threw e, w1)
    | (.pending, w1) => (.pending, w1)

instance : Monad Script where
  pure := fun v w => (.returned v, w)
  bind := Script.bind

/-- The statement `throw e`. -/
def throwJs {α : Type} (e : JsError) : Script α :=
  fun w => (.threw e, w)

/-- The statement `try { body } catch (err) { handler }`. -/
def tryCatch {α : Type} (body : Script α) (handler : JsError → Script α) : Script α :=
  fun w =>
    match body w with
    | (.returned v, w1) => (.returned v, w1)
    | (.threw e, w1) => handler e w1
    | (.pending, w1) => (.pending, w1)

/-- The statement `try { body } finally { cleanup }`. -/
def tryFinally {α : Type} (body : Script α) (cleanup : Script Unit) : Script α :=
  fun w =>
    match body w with
    | (.returned v, w1) =>
      match cleanup w1 with
      | (.returned _, w2) => (.returned v, w2)
      | (.threw e, w2) => (.threw e, w2)
      | (.pending, w2) => (.pending, w2)
    | (.threw e, w1) =>
      match cleanup w1 with
      | (.returned _, w2) => (.threw e, w2)
      | (.threw e2, w2) => (.threw e2, w2)
      | (.pending, w2) => (.pending, w2)
    | (.pending, w1) => (.pending, w1)

/-- Appends a call to the record of platform calls. -/
def record (c : Call) (w : World) : World :=
  { w with calls := w.calls ++ [c] }

/-- The call `localStorage.getItem(key)`: the value, or `null`. -/
def getItem (key : String) : Script JVal :=
  fun w =>
    match storageGet key w.storage with
    | some v => (.returned (.str v), record (.getItem key) w)
    | none => (.returned .null, record (.getItem key) w)

/-- A step that yields a value, or throws the TypeError of a failed conversion. -/
def orThrow {α : Type} (o : Option α) : Script α :=
  fun w =>
    match o with
    | some a => (.returned a, w)
    | none => (.threw toPrimitiveError, w)

/-- The conversion of a value to a string, as a step of a script. -/
def toStringStep (v : JVal) : Script String :=
  orThrow v.jsString

/-- The expression `new Error(v)`: the message is the string form of `v`. -/
def newError (v : JVal) : Script JsError :=
  fun w =>
    match v.jsString with
    | some s => (.returned (mkError s), w)
    | none => (.threw toPrimitiveError, w)

/-- The call `localStorage.setItem(key, value)`; the value is converted to a
string, and nothing is stored when the conversion throws. -/
def setItem (key : String) (value : JVal) : Script Unit :=
  fun w =>
    match value.jsString with
    | some s => (.returned (), record (.setItem key s) { w with storage := storageSet key s w.storage })
    | none => (.threw toPrimitiveError, w)

/-- The call `localStorage.removeItem(key)`. -/
def removeItem (key : String) : Script Unit :=
  fun w => (.returned (),
    record (.removeItem key) { w with storage := storageRemove key w.storage })

/-- The call `setTimeout(callback, delay)`; returns the timer handle. -/
def setTimeout (action : TimerAction) (delay : Nat) : Script Nat :=
  fun w => (.returned w.nextHandle,
    record (.setTimeout w.nextHandle delay action)
      { w with timers := w.timers ++ [{ handle := w.nextHandle, delay := delay, action := action }],
               nextHandle := w.nextHandle + 1 })

/-- The call `clearTimeout(handle)`. -/
def clearTimeout (handle : Nat) : Script Unit :=
  fun w => (.returned (),
    record (.clearTimeout handle)
      { w with timers := w.timers.filter (fun t => decide (t.handle ≠ handle)) })

/-- The expression `new AbortController()`. -/
def newAbortController : Script Nat :=
  fun w => (.returned w.nextHandle, { w with nextHandle := w.nextHandle + 1 })

/-- The call `console.error(err)`. -/
def consoleError (e : JsError) : Script Unit :=
  fun w => (.returned (), record (.consoleError e) w)

/-- The expression `await fetch(url, init)`. A response or a network failure
settles the promise. When the network never answers, the promise settles only
if a pending timer aborts the signal of the request: that timer fires and the
promise rejects with an AbortError. -/
def awaitFetch (t : Transport) (req : Request) : Script Response :=
  fun w =>
    let w1 := record (.fetch req) w
    match t req with
    | .responds resp => (.returned resp, w1)
    | .fails text => (.threw (networkError text), w1)
    | .hangs =>
      match req.signal with
      | none => (.pending, w1)
      | some c =>
        match w1.timers.find? (fun tm => decide (tm.action = .abort c)) with
        | some tm => (.threw abortError, { w1 with timers := w1.timers.erase tm })
        | none => (.pending, w1)

/-! ## Helpers shared by the three scripts -/

/-- The constant `API_BASE`. -/
def API_BASE : String := "http://127.0.0.1:8000"

/-- The lines `let data = null; try { data = text ? JSON.parse(text) : null; } catch (_) {}`. -/
def parseBody (p : Platform) (text : String) : JVal :=
  if text = "" then .null
  else
    match p.jsonParse text with
    | some v => v
    | none => .null

/-- The expression `data?.detail || data?.message || text || "HTTP " + status`. -/
def extractDetail (data : JVal) (text : String) (status : Nat) : JVal :=
  (((data.prop "detail").or (data.prop "message")).or (.str text)).or
    (.str ("HTTP " ++ toString status))

/-- Whether a list of characters occurs as a contiguous block of another. -/
def includesChars (sub : List Char) : List Char → Bool
  | [] => sub.isPrefixOf []
  | c :: cs => sub.isPrefixOf (c :: cs) || includesChars sub cs

/-- The method `s.includes(sub)`. -/
def includes (s sub : String) : Bool :=
  includesChars sub.data s.data

/-- The property `s.length`: the number of UTF-16 code units. -/
def utf16Length (s : String) : Nat :=
  (s.data.map (fun c => if c.val < 0x10000 then 1 else 2)).sum

/-- The colour `setNotice` gives a notice of a type. -/
def noticeColor (type : String) : String :=
  if type = "error" then "#b42318" else if type = "success" then "#067647" else "#344054"

/-- The function `setNotice(type, text)` of login.js and register.js. -/
def setNotice (type text : String) : Script Unit :=
  fun w => (.returned (),
    { w with notice := { display := "block", text := text, color := noticeColor type } })

/-- The function `clearNotice()` of login.js and register.js. -/
def clearNotice : Script Unit :=
  fun w => (.returned (), { w with notice := { w.notice with display := "none", text := "" } })

/-- The button after `setLoading(isLoading)`, for the two captions of a form;
nothing changes when the button is missing. -/
def withButton (busy idle : String) (isLoading : Bool) (w : World) : World :=
  match w.submitBtn with
  | none => w
  | some _ =>
    { w with submitBtn := some (SubmitButton.mk isLoading
        (if isLoading then "0.7" else "1") (if isLoading then busy else idle)) }

/-- The function `setLoading(isLoading)`, with the two captions of the button. -/
def setLoadingWith (busy idle : String) (isLoading : Bool) : Script Unit :=
  fun w => (.returned (), withButton busy idle isLoading w)

/-! ## chat.js -/

namespace Chat

/-- The function `addMessage(role, text)`: one bubble appended to the chat. The
assignment to `textContent` converts the text to a string; when that throws,
nothing is appended. -/
def addMessage (role : String) (text : JVal) : Script Unit :=
  fun w =>
    match text.jsString with
    | some s => (.returned (),
      { w with messages := w.messages.map (fun ms =>
          ms ++ [{ role := if role = "user" then "user-message" else "ai-message",
                   text := s }]) })
    | none => (.threw toPrimitiveError, w)

/-- The async function `postChat(message)`. -/
def postChat (p : Platform) (t : Transport) (message : String) : Script JVal := do
  let token ← getItem "access_token"
  if !token.truthy then
    throwJs { name := "Error", message := "Нет access_token", status := some 401,
              body := .obj [("detail", .str "missing_token")] }
  else
    let tokenText ← toStringStep token
    let resp ← awaitFetch t
      { url := API_BASE ++ "/chat",
        method := "POST",
        headers := [("Content-Type", "application/json"),
                    ("Authorization", "Bearer " ++ tokenText)],
        body := .obj [("message", .str message)],
        signal := none,
        credentials := some "include" }
    let text := resp.text
    let data := parseBody p text
    if !resp.ok then
      let detail := extractDetail data text resp.status
      let err ← newError detail
      throwJs { err with status := some resp.status, body := data.coalesce (.str text) }
    else
      pure data

/-- The function `shouldLogoutOn401(detail)`; `none` when `String(detail || "")`
throws. -/
def shouldLogoutOn401 (p : Platform) (detail : JVal) : Option Bool :=
  match (detail.or (.str "")).jsString with
  | none => none
  | some text =>
    let d := p.toLowerCase text
    some (
      includes d "token" ||
      includes d "jwt" ||
      includes d "expired" ||
      includes d "signature" ||
      includes d "not authenticated" ||
      includes d "missing bearer" ||
      includes d "invalid")

/-- The detail the catch block of the submit handler derives from an error;
`none` when `String(body || "")` throws. -/
def errorDetail (err : JsError) : Option JVal :=
  if err.body.typeofObject && err.body.truthy then
    some (((err.body.prop "detail").or (err.body.prop "message")).or (.str err.message))
  else if err.message ≠ "" then
    some (.str err.message)
  else
    match (err.body.or (.str "")).jsString with
    | some s => some (.str s)
    | none => none

/-- The catch block of the submit handler. -/
def onError (err : JsError) : Script Unit := do
  consoleError err
  let status := err.status
  let detail ← orThrow (errorDetail err)
  if status = some 401 then
    let shown ← toStringStep (detail.or (.str "401"))
    addMessage "assistant" (.str ("Нет доступа: " ++ shown))
    removeItem "access_token"
    let _ ← setTimeout (.locationReplace "login.html?reason=401") 400
    pure ()
  else
    let shown ← toStringStep (detail.or (.str "unknown error"))
    addMessage "assistant" (.str ("Ошибка: " ++ shown))

/-- The statement `input.value = ""`; a TypeError when the field is missing. -/
def clearInput : Script Unit :=
  fun w =>
    match w.input with
    | some _ => (.returned (), { w with input := some "" })
    | none => (.threw { name := "TypeError", message := "Cannot set properties of null",
                        status := none, body := .undefined }, w)

/-- The submit handler of the message form. -/
def onSubmit (p : Platform) (t : Transport) : Script Unit :=
  fun w0 =>
    let msg := p.trim (w0.input.getD "")
    if msg = "" then (.returned (), w0)
    else
      (do
        clearInput
        addMessage "user" (.str msg)
        tryCatch
          (do
            let data ← postChat p t msg
            addMessage "assistant" ((data.prop "reply").or (.str "Пустой ответ.")))
          onError) w0

end Chat

/-! ## login.js -/

namespace Login

/-- The function `setLoading(isLoading)`. -/
def setLoading (isLoading : Bool) : Script Unit :=
  setLoadingWith "Signing in..." "Sign In" isLoading

/-- The function `normalize(str)`. -/
def normalize (p : Platform) (str : Option String) : String :=
  p.trim (str.getD "")

/-- The async function `postJson(url, payload, timeoutMs)`. -/
def postJson (p : Platform) (t : Transport) (url : String) (payload : JVal)
    (timeoutMs : Nat) : Script JVal := do
  let ctrl ← newAbortController
  let tm ← setTimeout (.abort ctrl) timeoutMs
  tryFinally
    (do
      let resp ← awaitFetch t
        { url := url,
          method := "POST",
          headers := [("Content-Type", "application/json")],
          body := payload,
          signal := some ctrl,
          credentials := some "include" }
      let text := resp.text
      let data := parseBody p text
      if !resp.ok then
        let detail := extractDetail data text resp.status
        let err ← newError detail
        throwJs { err with status := some resp.status }
      else
        pure data)
    (clearTimeout tm)

/-- The default value of the parameter `timeoutMs`. -/
def defaultTimeoutMs : Nat := 15000

/-- The catch block of the submit handler. -/
def onError (err : JsError) : Script Unit := do
  if err.name = "AbortError" then
    setNotice "error" "Сервер не отвечает (таймаут)."
  else if err.status = some 401 then
    setNotice "error" "Неверный email или пароль."
  else
    setNotice "error" (if err.message = "" then "Ошибка входа." else err.message)
  consoleError err

/-- The submit handler of the login form; the arguments are the values of the
email and password fields (`none` when the element is missing). -/
def onSubmit (p : Platform) (t : Transport) (emailValue passValue : Option String) :
    Script Unit := do
  clearNotice
  let email := p.toLowerCase (normalize p emailValue)
  let password := passValue.getD ""
  if email = "" ∨ password = "" then
    setNotice "error" "Введите email и пароль."
  else
    setLoading true
    tryFinally
      (tryCatch
        (do
          let data ← postJson p t (API_BASE ++ "/login")
            (.obj [("email", .str email), ("password", .str password)]) defaultTimeoutMs
          if !(data.prop "access_token").truthy then
            throwJs (mkError "Нет access_token в ответе сервера.")
          else
            setItem "access_token" (data.prop "access_token")
            setNotice "success" "Вход выполнен. Перенаправляю…"
            let _ ← setTimeout (.locationAssign "mainpage.html") 300
            pure ())
        onError)
      (setLoading false)

end Login

/-! ## register.js -/

namespace Register

/-- The function `setLoading(isLoading)`. -/
def setLoading (isLoading : Bool) : Script Unit :=
  setLoadingWith "Creating..." "Create Account" isLoading

/-- The function `normalizeSpaces(str)`. -/
def normalizeSpaces (p : Platform) (str : Option String) : String :=
  p.trim (p.reReplaceAll "\\s+" " " (str.getD ""))

/-- The function `validateName(name)`. -/
def validateName (p : Platform) (name : String) : Bool :=
  p.reTest "^[A-Za-zА-Яа-яЁё\\s\x27-]\x7b2,60\x7d$" name

/-- The function `validateEmail(email)`. -/
def validateEmail (p : Platform) (email : String) : Bool :=
  p.reTest "^[^\\s@]+@[^\\s@]+\\.[^\\s@]\x7b2,\x7d$" email

/-- The function `validatePassword(pw)`. -/
def validatePassword (pw : String) : Bool :=
  decide (8 ≤ utf16Length pw) && decide (utf16Length pw ≤ 64)

/-- The async function `postJson(url, payload, timeoutMs)`. -/
def postJson (p : Platform) (t : Transport) (url : String) (payload : JVal)
    (timeoutMs : Nat) : Script JVal := do
  let ctrl ← newAbortController
  let tm ← setTimeout (.abort ctrl) timeoutMs
  tryFinally
    (do
      let resp ← awaitFetch t
        { url := url,
          method := "POST",
          headers := [("Content-Type", "application/json")],
          body := payload,
          signal := some ctrl,
          credentials := none }
      let text := resp.text
      let data := parseBody p text
      if !resp.ok then
        let detail := extractDetail data text resp.status
        let err ← newError detail
        throwJs { err with status := some resp.status }
      else
        pure data)
    (clearTimeout tm)

/-- The default value of the parameter `timeoutMs`. -/
def defaultTimeoutMs : Nat := 15000

/-- The list `errors` the submit handler collects. -/
def validationErrors (p : Platform) (name email password : String) : List String :=
  (if !validateName p name then ["Имя: 2–60 символов (буквы, пробел, дефис)."] else []) ++
  (if !validateEmail p email then ["Email: некорректный формат."] else []) ++
  (if !validatePassword password then ["Пароль: минимум 8 символов."] else [])

/-- The catch block of the submit handler. -/
def onError (err : JsError) : Script Unit := do
  if err.name = "AbortError" then
    setNotice "error" "Сервер не отвечает (таймаут). Проверь backend на 127.0.0.1:8000."
  else if err.status = some 409 then
    setNotice "error" "Пользователь уже существует. Перейдите к входу."
  else
    setNotice "error" (if err.message = "" then "Ошибка регистрации." else err.message)
  consoleError err

/-- The submit handler of the registration form; the arguments are the values
of the name, email and password fields (`none` when the element is missing). -/
def onSubmit (p : Platform) (t : Transport) (nameValue emailValue passValue : Option String) :
    Script Unit := do
  clearNotice
  let name := normalizeSpaces p nameValue
  let email := p.toLowerCase (normalizeSpaces p emailValue)
  let password := passValue.getD ""
  let errors := validationErrors p name email password
  if errors ≠ [] then
    setNotice "error" (String.intercalate " " errors)
  else
    setLoading true
    tryFinally
      (tryCatch
        (do
          let _ ← postJson p t (API_BASE ++ "/register")
            (.obj [("name", .str name), ("email", .str email), ("password", .str password)])
            defaultTimeoutMs
          setNotice "success" "Аккаунт создан. Теперь войдите…"
          let _ ← setTimeout (.locationAssign "login.html") 400
          pure ())
        onError)
      (setLoading false)

end Register

/-! ## Vocabulary of the properties -/

/-- The first truthy value of a list, and a fallback when there is none. -/
def firstTruthy : List JVal → JVal → JVal
  | [], fallback => fallback
  | v :: rest, fallback => if v.truthy then v else firstTruthy rest fallback

/-- A value is present and non-empty: it is neither `undefined` nor `null`, and
it is not an empty string, an empty array or an empty object. -/
def presentNonEmpty : JVal → Bool
  | .undefined => false
  | .null => false
  | .bool _ => true
  | .num _ => true
  | .str s => decide (s ≠ "")
  | .arr items => !items.isEmpty
  | .obj fields => !fields.isEmpty

/-- The detail of a failed response in the words of the specification: the
first present and non-empty of the detail field of the parsed body, its message
field and the raw text, and otherwise the literal `HTTP status`. -/
def specDetail (data : JVal) (text : String) (status : Nat) : Option String :=
  match [data.prop "detail", data.prop "message", JVal.str text].find? presentNonEmpty with
  | some v => v.jsString
  | none => some ("HTTP " ++ toString status)

/-- The parsed body in the words of the specification: the JSON-decoded value,
or `null` when the body is empty or is not valid JSON. -/
def specParsedBody (p : Platform) (text : String) : JVal :=
  match p.jsonParse text with
  | some v => if text = "" then .null else v
  | none => .null

/-- A field of the parsed body is absent or holds a string. -/
def absentOrString : JVal → Prop
  | .undefined => True
  | .str _ => True
  | _ => False

/-- The substrings `shouldLogoutOn401` looks for. -/
def logoutKeywords : List String :=
  ["token", "jwt", "expired", "signature", "not authenticated", "missing bearer", "invalid"]

/-- The request `postChat` sends for a stored token and a message. -/
def chatRequest (token message : String) : Request :=
  { url := API_BASE ++ "/chat",
    method := "POST",
    headers := [("Content-Type", "application/json"), ("Authorization", "Bearer " ++ token)],
    body := .obj [("message", .str message)],
    signal := none,
    credentials := some "include" }

/-- The request `postJson` of login.js sends under an AbortController. -/
def loginRequest (url : String) (payload : JVal) (ctrl : Nat) : Request :=
  { url := url,
    method := "POST",
    headers := [("Content-Type", "application/json")],
    body := payload,
    signal := some ctrl,
    credentials := some "include" }

/-- The request `postJson` of register.js sends under an AbortController. -/
def registerRequest (url : String) (payload : JVal) (ctrl : Nat) : Request :=
  { url := url,
    method := "POST",
    headers := [("Content-Type", "application/json")],
    body := payload,
    signal := some ctrl,
    credentials := none }

/-- How a request helper completes on a response that is not ok: it throws the
error built from the extracted detail, with the status of the response and the
given body, or the TypeError of `new Error(detail)`. -/
def httpFailure (p : Platform) (resp : Response) (body : JVal) : Completion JVal :=
  match (extractDetail (parseBody p resp.text) resp.text resp.status).jsString with
  | some s => .threw { name := "Error", message := s, status := some resp.status, body := body }
  | none => .threw toPrimitiveError

/-- How `postJson` completes for each behaviour of the network. -/
def postJsonCompletion (p : Platform) : FetchResult → Completion JVal
  | .responds resp =>
    if resp.ok then .returned (parseBody p resp.text) else httpFailure p resp .undefined
  | .fails text => .threw (networkError text)
  | .hangs => .threw abortError

/-- The platform calls one run of `postJson` makes, for the handle counter at
its start. -/
def postJsonCalls (req : Request) (timeoutMs n : Nat) : List Call :=
  [.setTimeout (n + 1) timeoutMs (.abort n), .fetch req, .clearTimeout (n + 1)]

/-! ## Fixtures: a platform and a world for closed instances -/

/-- ASCII lower-casing of a string. -/
def asciiLower (s : String) : String :=
  ⟨s.data.map Char.toLower⟩

/-- The text `{"detail":"a"}`. -/
def detailBody : String := "\x7b\"detail\":\"a\"\x7d"

/-- The text `{"message":"b"}`. -/
def messageBody : String := "\x7b\"message\":\"b\"\x7d"

/-- The text `{"detail":[]}`. -/
def emptyListDetailBody : String := "\x7b\"detail\":[]\x7d"

/-- The text `{"detail":{"toString":1}}`. -/
def toStringDetailBody : String := "\x7b\"detail\":\x7b\"toString\":1\x7d\x7d"

/-- The text `{"access_token":"T"}`. -/
def tokenBody : String := "\x7b\"access_token\":\"T\"\x7d"

/-- The value of `JSON.parse` on the five texts above; every other text is
treated as invalid JSON, as the plain text `c` is. -/
def fixtureParse (text : String) : Option JVal :=
  if text = detailBody then some (.obj [("detail", .str "a")])
  else if text = messageBody then some (.obj [("message", .str "b")])
  else if text = emptyListDetailBody then some (.obj [("detail", .arr [])])
  else if text = toStringDetailBody then
    some (.obj [("detail", .obj [("toString", .num "1")])])
  else if text = tokenBody then some (.obj [("access_token", .str "T")])
  else none

/-- A platform for closed instances: `JSON.parse` tabulated by `fixtureParse`,
ASCII lower-casing, and regular expressions tabulated on the form values
`Ivan Petrov` and `ivan@example.com`, which need no trimming or replacement. -/
def fixturePlatform : Platform :=
  { jsonParse := fixtureParse,
    trim := fun s => s,
    toLowerCase := asciiLower,
    reTest := fun _ s => decide (s = "Ivan Petrov") || decide (s = "ivan@example.com"),
    reReplaceAll := fun _ _ s => s }

/-- A page with empty storage, no timers, an empty chat and a typed message. -/
def emptyWorld : World :=
  { storage := [],
    timers := [],
    nextHandle := 0,
    calls := [],
    messages := some [],
    input := some "hello",
    notice := { display := "none", text := "", color := "" },
    submitBtn := some { disabled := false, opacity := "1", value := "Sign In" } }

/-- The same page with the token `T` in storage. -/
def tokenWorld : World :=
  { emptyWorld with storage := [("access_token", "T")] }

/-! ## Lemmas on the platform model -/

theorem fetchCalls_append (a b : List Call) :
    fetchCalls (a ++ b) = fetchCalls a ++ fetchCalls b := by
  induction a with
  | nil => rfl
  | cons c rest ih => cases c <;> simp [fetchCalls, ih]

theorem storageKeys_append (a b : List Call) :
    storageKeys (a ++ b) = storageKeys a ++ storageKeys b := by
  induction a with
  | nil => rfl
  | cons c rest ih => cases c <;> simp [storageKeys, ih]

theorem storageGet_remove (k : String) (s : List (String × String)) :
    storageGet k (storageRemove k s) = none := by
  induction s with
  | nil => rfl
  | cons kv rest ih =>
    obtain ⟨k', v⟩ := kv
    by_cases h : k' = k
    · simp [storageRemove, h, ih]
    · simp [storageRemove, storageGet, h, ih]

theorem storageGet_set (k v : String) (s : List (String × String)) :
    storageGet k (storageSet k v s) = some v := by
  simp [storageSet, storageGet]

/-- A string is its own string form. -/
theorem jsString_str (s : String) : (JVal.str s).jsString = some s := by
  simp [JVal.jsString]

theorem orThrow_some {α : Type} (a : α) (w : World) :
    orThrow (some a) w = (.returned a, w) := rfl

theorem orThrow_none {α : Type} (w : World) :
    orThrow (none : Option α) w = (.threw toPrimitiveError, w) := rfl

/-- The script `postChat` on a world whose storage holds no usable token. -/
theorem postChat_without_token (p : Platform) (t : Transport) (message : String) (w : World)
    (h : storageGet "access_token" w.storage = none ∨
         storageGet "access_token" w.storage = some "") :
    Chat.postChat p t message w =
      (.threw { name := "Error", message := "Нет access_token", status := some 401,
                body := .obj [("detail", .str "missing_token")] },
       record (.getItem "access_token") w) := by
  rcases h with h | h <;>
    simp [Chat.postChat, bind, Script.bind, getItem, h, JVal.truthy, throwJs]

/-- The script `postChat` on a world whose storage holds a non-empty token. -/
theorem postChat_with_token (p : Platform) (t : Transport) (message tok : String) (w : World)
    (h : storageGet "access_token" w.storage = some tok) (hne : tok ≠ "") :
    Chat.postChat p t message w =
      match t (chatRequest tok message) with
      | .responds resp =>
        (if resp.ok then .returned (parseBody p resp.text)
         else httpFailure p resp ((parseBody p resp.text).coalesce (.str resp.text)),
         record (.fetch (chatRequest tok message)) (record (.getItem "access_token") w))
      | .fails text =>
        (.threw (networkError text),
         record (.fetch (chatRequest tok message)) (record (.getItem "access_token") w))
      | .hangs =>
        (.pending,
         record (.fetch (chatRequest tok message)) (record (.getItem "access_token") w)) := by
  have ht : (JVal.str tok).truthy = true := by simp [JVal.truthy, hne]
  simp only [Chat.postChat, chatRequest, bind, Script.bind, getItem, h, ht, toStringStep,
    orThrow_some, jsString_str]
  simp only [Bool.not_true, Bool.false_eq_true, if_false, Script.bind, orThrow_some]
  simp only [awaitFetch, Script.bind]
  cases t { url := API_BASE ++ "/chat", method := "POST",
            headers := [("Content-Type", "application/json"), ("Authorization", "Bearer " ++ tok)],
            body := .obj [("message", .str message)], signal := none,
            credentials := some "include" } with
  | responds resp =>
    cases hok : resp.ok
    · cases hd : (extractDetail (parseBody p resp.text) resp.text resp.status).jsString <;>
        simp [throwJs, httpFailure, newError, mkError, hok, hd, Script.bind]
    · simp [pure, hok]
  | fails text => simp
  | hangs => simp

/-- The abort timer `postJson` arms is found among the pending timers. -/
theorem find_abort_timer (ts : List Timer) (h delay c : Nat) :
    ∃ tm, (ts ++ [Timer.mk h delay (.abort c)]).find?
      (fun tm => decide (tm.action = .abort c)) = some tm := by
  cases hf : (ts ++ [Timer.mk h delay (.abort c)]).find?
      (fun tm => decide (tm.action = .abort c)) with
  | some tm => exact ⟨tm, rfl⟩
  | none =>
    rw [List.find?_eq_none] at hf
    have := hf (Timer.mk h delay (.abort c)) (by simp)
    simp at this

/-- The script `postJson` of login.js, for each behaviour of the network. -/
theorem login_postJson_eq (p : Platform) (t : Transport) (url : String) (payload : JVal)
    (timeoutMs : Nat) (w : World) :
    ∃ ts, Login.postJson p t url payload timeoutMs w =
      (postJsonCompletion p (t (loginRequest url payload w.nextHandle)),
       { w with timers := ts, nextHandle := w.nextHandle + 2,
                calls := w.calls ++
                  postJsonCalls (loginRequest url payload w.nextHandle) timeoutMs w.nextHandle }) := by
  simp only [Login.postJson, loginRequest, bind, Script.bind, newAbortController, setTimeout,
    tryFinally, awaitFetch, record, clearTimeout, postJsonCompletion, postJsonCalls]
  cases t { url := url, method := "POST", headers := [("Content-Type", "application/json")],
            body := payload, signal := some w.nextHandle, credentials := some "include" } with
  | responds resp =>
    cases hok : resp.ok
    · cases hd : (extractDetail (parseBody p resp.text) resp.text resp.status).jsString <;>
        simp [throwJs, httpFailure, newError, mkError, hok, hd, Script.bind]
    · simp [pure, hok]
  | fails text => simp
  | hangs =>
    obtain ⟨tm, htm⟩ := find_abort_timer w.timers (w.nextHandle + 1) timeoutMs w.nextHandle
    simp [htm]

/-- The script `postJson` of register.js, for each behaviour of the network. -/
theorem register_postJson_eq (p : Platform) (t : Transport) (url : String) (payload : JVal)
    (timeoutMs : Nat) (w : World) :
    ∃ ts, Register.postJson p t url payload timeoutMs w =
      (postJsonCompletion p (t (registerRequest url payload w.nextHandle)),
       { w with timers := ts, nextHandle := w.nextHandle + 2,
                calls := w.calls ++
                  postJsonCalls (registerRequest url payload w.nextHandle) timeoutMs
                    w.nextHandle }) := by
  simp only [Register.postJson, registerRequest, bind, Script.bind, newAbortController,
    setTimeout, tryFinally, awaitFetch, record, clearTimeout, postJsonCompletion, postJsonCalls]
  cases t { url := url, method := "POST", headers := [("Content-Type", "application/json")],
            body := payload, signal := some w.nextHandle, credentials := none } with
  | responds resp =>
    cases hok : resp.ok
    · cases hd : (extractDetail (parseBody p resp.text) resp.text resp.status).jsString <;>
        simp [throwJs, httpFailure, newError, mkError, hok, hd, Script.bind]
    · simp [pure, hok]
  | fails text => simp
  | hangs =>
    obtain ⟨tm, htm⟩ := find_abort_timer w.timers (w.nextHandle + 1) timeoutMs w.nextHandle
    simp [htm]

/-- The chain of `||` in the request helpers picks the first truthy candidate. -/
theorem extractDetail_eq_firstTruthy (data : JVal) (text : String) (status : Nat) :
    extractDetail data text status =
      firstTruthy [data.prop "detail", data.prop "message", .str text]
        (.str ("HTTP " ++ toString status)) := by
  unfold extractDetail firstTruthy firstTruthy firstTruthy firstTruthy JVal.or
  cases h1 : (data.prop "detail").truthy <;> cases h2 : (data.prop "message").truthy <;>
    cases h3 : (JVal.str text).truthy <;> simp [h1, h2, h3]

/-- On candidates that are absent or strings, truthy means present and non-empty. -/
theorem firstTruthy_eq_specDetail (data : JVal) (text : String) (status : Nat)
    (hd : absentOrString (data.prop "detail")) (hm : absentOrString (data.prop "message")) :
    (firstTruthy [data.prop "detail", data.prop "message", .str text]
      (.str ("HTTP " ++ toString status))).jsString = specDetail data text status ∧
    ∃ s, specDetail data text status = some s := by
  unfold specDetail
  cases h1 : data.prop "detail" <;> rw [h1] at hd <;> simp only [absentOrString] at hd <;>
    cases h2 : data.prop "message" <;> rw [h2] at hm <;> simp only [absentOrString] at hm
  · by_cases ht : text = "" <;>
      simp [firstTruthy, JVal.truthy, presentNonEmpty, List.find?, ht, JVal.jsString]
  · rename_i b
    by_cases hb : b = "" <;> by_cases ht : text = "" <;>
      simp [firstTruthy, JVal.truthy, presentNonEmpty, List.find?, hb, ht, JVal.jsString]
  · rename_i a
    by_cases ha : a = "" <;> by_cases ht : text = "" <;>
      simp [firstTruthy, JVal.truthy, presentNonEmpty, List.find?, ha, ht, JVal.jsString]
  · rename_i a b
    by_cases ha : a = "" <;> by_cases hb : b = "" <;> by_cases ht : text = "" <;>
      simp [firstTruthy, JVal.truthy, presentNonEmpty, List.find?, ha, hb, ht, JVal.jsString]

/-- The script `postChat` reads nothing but storage and only appends platform
calls: on all worlds with the same storage it completes alike. -/
theorem postChat_frame (p : Platform) (t : Transport) (message : String) (w : World) :
    ∃ c cs, ∀ w2 : World, w2.storage = w.storage →
      Chat.postChat p t message w2 = (c, { w2 with calls := w2.calls ++ cs }) := by
  cases hget : storageGet "access_token" w.storage with
  | none =>
    refine ⟨(Chat.postChat p t message w).1, [.getItem "access_token"], fun w2 h2 => ?_⟩
    rw [postChat_without_token p t message w2 (Or.inl (by rw [h2, hget])),
      postChat_without_token p t message w (Or.inl hget)]
    rfl
  | some tok =>
    by_cases hne : tok = ""
    · refine ⟨(Chat.postChat p t message w).1, [.getItem "access_token"], fun w2 h2 => ?_⟩
      rw [postChat_without_token p t message w2 (Or.inr (by rw [h2, hget, hne])),
        postChat_without_token p t message w (Or.inr (by rw [hget, hne]))]
      rfl
    · cases ht : t (chatRequest tok message) with
      | responds resp =>
        refine ⟨(Chat.postChat p t message w).1,
          [.getItem "access_token", .fetch (chatRequest tok message)], fun w2 h2 => ?_⟩
        rw [postChat_with_token p t message tok w2 (by rw [h2, hget]) hne,
          postChat_with_token p t message tok w hget hne, ht]
        simp [record]
      | fails text =>
        refine ⟨(Chat.postChat p t message w).1,
          [.getItem "access_token", .fetch (chatRequest tok message)], fun w2 h2 => ?_⟩
        rw [postChat_with_token p t message tok w2 (by rw [h2, hget]) hne,
          postChat_with_token p t message tok w hget hne, ht]
        simp [record]
      | hangs =>
        refine ⟨(Chat.postChat p t message w).1,
          [.getItem "access_token", .fetch (chatRequest tok message)], fun w2 h2 => ?_⟩
        rw [postChat_with_token p t message tok w2 (by rw [h2, hget]) hne,
          postChat_with_token p t message tok w hget hne, ht]
        simp [record]

theorem or_truthy (a b : JVal) (h : a.truthy = true) : a.or b = a := by
  simp [JVal.or, h]

theorem or_falsy (a b : JVal) (h : a.truthy = false) : a.or b = b := by
  simp [JVal.or, h]

/-- Either of two strings has a string form. -/
theorem str_or_str_jsString (y x : String) :
    ∃ s, ((JVal.str y).or (.str x)).jsString = some s := by
  unfold JVal.or
  split <;> simp [JVal.jsString]

/-- The catch block of the chat finds a detail in an error without a body, and
that detail can be shown. -/
theorem errorDetail_without_body (name message : String) (status : Option Nat) :
    ∃ d, Chat.errorDetail { name := name, message := message, status := status,
                            body := .undefined } = some d ∧
      ∀ x : String, ∃ s, (d.or (.str x)).jsString = some s := by
  by_cases hm : message = ""
  · exact ⟨.str "", by simp [Chat.errorDetail, JVal.typeofObject, hm, JVal.or, JVal.truthy,
      JVal.jsString], fun x => str_or_str_jsString "" x⟩
  · exact ⟨.str message, by simp [Chat.errorDetail, JVal.typeofObject, hm],
      fun x => str_or_str_jsString message x⟩

/-- The catch block of the chat finds a detail in the error `postChat` builds
from a response, and that detail can be shown. -/
theorem errorDetail_of_httpError (data : JVal) (text : String) (status : Nat) (s : String)
    (hs : (extractDetail data text status).jsString = some s) :
    ∃ d, Chat.errorDetail { name := "Error", message := s, status := some status,
                            body := data.coalesce (.str text) } = some d ∧
      ∀ x : String, ∃ s2, (d.or (.str x)).jsString = some s2 := by
  have hprim : ∀ b : JVal, b.typeofObject = false → (∃ r, (b.or (.str "")).jsString = some r) →
      ∃ d, Chat.errorDetail { name := "Error", message := s, status := some status,
                              body := b } = some d ∧
        ∀ x : String, ∃ s2, (d.or (.str x)).jsString = some s2 := by
    intro b hb ⟨r, hr⟩
    by_cases hm : s = ""
    · exact ⟨.str r, by simp [Chat.errorDetail, hb, hm, hr], fun x => str_or_str_jsString r x⟩
    · exact ⟨.str s, by simp [Chat.errorDetail, hb, hm], fun x => str_or_str_jsString s x⟩
  cases data with
  | undefined => exact hprim _ rfl (str_or_str_jsString text "")
  | null => exact hprim _ rfl (str_or_str_jsString text "")
  | bool b =>
    refine hprim _ rfl ?_
    cases b <;> simp [JVal.coalesce, JVal.or, JVal.truthy, JVal.jsString]
  | num r =>
    refine hprim _ rfl ?_
    by_cases hr : r = "0" <;> simp [JVal.coalesce, JVal.or, JVal.truthy, JVal.jsString, hr]
  | str y => exact hprim _ rfl (str_or_str_jsString y "")
  | arr items =>
    exact ⟨.str s, by simp [Chat.errorDetail, JVal.coalesce, JVal.typeofObject, JVal.truthy,
      JVal.prop, JVal.or], fun x => str_or_str_jsString s x⟩
  | obj fields =>
    have hbody : Chat.errorDetail
        (JsError.mk "Error" s (some status) ((JVal.obj fields).coalesce (.str text)))
        = some (((lookupField "detail" fields).or (lookupField "message" fields)).or
            (.str s)) := by
      simp only [Chat.errorDetail, JVal.coalesce, JVal.typeofObject, JVal.truthy, JVal.prop,
        Bool.and_self, if_true]
    have hx : extractDetail (.obj fields) text status
        = (((lookupField "detail" fields).or (lookupField "message" fields)).or
            (.str text)).or (.str ("HTTP " ++ toString status)) := by
      simp only [extractDetail, JVal.prop]
    rw [hbody]
    rw [hx] at hs
    generalize (lookupField "detail" fields).or (lookupField "message" fields) = a at hs ⊢
    cases ha : a.truthy with
    | false =>
      refine ⟨.str s, by rw [or_falsy a _ ha], fun x => str_or_str_jsString s x⟩
    | true =>
      rw [or_truthy a _ ha, or_truthy a _ ha] at hs
      exact ⟨a, by rw [or_truthy a _ ha], fun x => ⟨s, by rw [or_truthy a _ ha]; exact hs⟩⟩

/-- Every error `postChat` throws has a detail the catch block can show. -/
theorem postChat_error_detail (p : Platform) (t : Transport) (message : String) (w : World)
    (e : JsError) (hthrow : (Chat.postChat p t message w).1 = .threw e) :
    ∃ d, Chat.errorDetail e = some d ∧
      ∀ x : String, ∃ s, (d.or (.str x)).jsString = some s := by
  have hmissing : ∀ w2 : World, storageGet "access_token" w.storage = none ∨
      storageGet "access_token" w.storage = some "" →
      ∃ d, Chat.errorDetail e = some d ∧
        ∀ x : String, ∃ s, (d.or (.str x)).jsString = some s := by
    intro _ h
    rw [postChat_without_token p t message w h] at hthrow
    simp only [Completion.threw.injEq] at hthrow
    subst hthrow
    exact ⟨.str "missing_token", by
      simp [Chat.errorDetail, JVal.typeofObject, JVal.truthy, JVal.prop, lookupField, JVal.or],
      fun x => str_or_str_jsString "missing_token" x⟩
  cases hget : storageGet "access_token" w.storage with
  | none => exact hmissing w (Or.inl hget)
  | some tok =>
    by_cases hne : tok = ""
    · exact hmissing w (Or.inr (by rw [hget, hne]))
    · rw [postChat_with_token p t message tok w hget hne] at hthrow
      cases ht : t (chatRequest tok message) with
      | responds resp =>
        rw [ht] at hthrow
        cases hok : resp.ok with
        | true => simp [hok] at hthrow
        | false =>
          simp only [hok, Bool.false_eq_true, if_false, httpFailure] at hthrow
          cases hd : (extractDetail (parseBody p resp.text) resp.text resp.status).jsString with
          | none =>
            simp only [hd, Completion.threw.injEq] at hthrow
            subst hthrow
            exact errorDetail_without_body _ _ _
          | some s =>
            simp only [hd, Completion.threw.injEq] at hthrow
            subst hthrow
            exact errorDetail_of_httpError _ _ _ s hd
      | fails text =>
        rw [ht] at hthrow
        simp only [Completion.threw.injEq] at hthrow
        subst hthrow
        exact errorDetail_without_body _ _ _
      | hangs =>
        rw [ht] at hthrow
        simp at hthrow

/-- The submit handler of the chat when `postChat` throws: the typed message is
shown, the field is emptied, and the catch block runs on the error. -/
theorem chat_onSubmit_threw (p : Platform) (t : Transport) (w : World) (v : String)
    (e : JsError) (hin : w.input = some v) (hmsg : p.trim v ≠ "")
    (hthrow : (Chat.postChat p t (p.trim v) w).1 = .threw e) :
    Chat.onSubmit p t w =
      Chat.onError e
        { (Chat.postChat p t (p.trim v) w).2 with
          input := some "",
          messages := w.messages.map (fun ms =>
            ms ++ [{ role := "user-message", text := p.trim v }]) } := by
  obtain ⟨c, cs, hframe⟩ := postChat_frame p t (p.trim v) w
  have hw := hframe w rfl
  rw [hw] at hthrow ⊢
  simp only at hthrow
  subst hthrow
  simp only [Chat.onSubmit, hin, Option.getD_some, hmsg, if_false, bind, Script.bind,
    Chat.clearInput, Chat.addMessage, jsString_str, tryCatch, if_true]
  rw [hframe ⟨w.storage, w.timers, w.nextHandle, w.calls,
    w.messages.map (fun ms => ms ++ [ChatMessage.mk "user-message" (p.trim v)]),
    some "", w.notice, w.submitBtn⟩ rfl]

/-- The catch block of the chat on an error whose detail can be shown: the
error is logged, and on a status other than 401 one bubble is appended. -/
theorem chat_onError_other (e : JsError) (d : JVal) (s : String) (w : World)
    (hd : Chat.errorDetail e = some d) (hs : (d.or (.str "unknown error")).jsString = some s)
    (hst : e.status ≠ some 401) :
    Chat.onError e w =
      (.returned (),
       { w with calls := w.calls ++ [.consoleError e],
                messages := w.messages.map (fun ms =>
                  ms ++ [{ role := "ai-message", text := "Ошибка: " ++ s }]) }) := by
  simp only [Chat.onError, bind, Script.bind, consoleError, hd, orThrow_some, hst, if_false,
    toStringStep, hs, Chat.addMessage, jsString_str, record]
  simp

/-- The catch block of the chat on an error whose detail can be shown: on the
status 401 one bubble is appended, the token is removed and the navigation to
the login page is scheduled. -/
theorem chat_onError_401 (e : JsError) (d : JVal) (s : String) (w : World)
    (hd : Chat.errorDetail e = some d) (hs : (d.or (.str "401")).jsString = some s)
    (hst : e.status = some 401) :
    Chat.onError e w =
      (.returned (),
       { w with calls := w.calls ++ [.consoleError e, .removeItem "access_token",
                  .setTimeout w.nextHandle 400 (.locationReplace "login.html?reason=401")],
                messages := w.messages.map (fun ms =>
                  ms ++ [{ role := "ai-message", text := "Нет доступа: " ++ s }]),
                storage := storageRemove "access_token" w.storage,
                timers := w.timers ++
                  [Timer.mk w.nextHandle 400 (.locationReplace "login.html?reason=401")],
                nextHandle := w.nextHandle + 1 }) := by
  simp only [Chat.onError, bind, Script.bind, consoleError, hd, orThrow_some, hst, if_true,
    toStringStep, hs, Chat.addMessage, jsString_str, record, removeItem, setTimeout, pure]
  simp

/-- The submit handler of the login form once both fields are filled: the
notice is cleared, the button is set to loading, and `postJson` runs for
`/login` with the default timeout inside the try, catch and finally blocks. -/
theorem login_onSubmit_filled (p : Platform) (t : Transport) (ev pv : Option String)
    (w : World) (hemail : p.toLowerCase (p.trim (ev.getD "")) ≠ "") (hpass : pv.getD "" ≠ "") :
    Login.onSubmit p t ev pv w =
      tryFinally
        (tryCatch
          (do
            let data ← Login.postJson p t (API_BASE ++ "/login")
              (.obj [("email", .str (p.toLowerCase (p.trim (ev.getD "")))),
                     ("password", .str (pv.getD ""))]) Login.defaultTimeoutMs
            if !(data.prop "access_token").truthy then
              throwJs (mkError "Нет access_token в ответе сервера.")
            else
              setItem "access_token" (data.prop "access_token")
              setNotice "success" "Вход выполнен. Перенаправляю…"
              let _ ← setTimeout (.locationAssign "mainpage.html") 300
              pure ())
          Login.onError)
        (Login.setLoading false)
        (withButton "Signing in..." "Sign In" true
          { w with notice := { w.notice with display := "none", text := "" } }) := by
  simp [Login.onSubmit, Login.normalize, hemail, hpass, bind, Script.bind, clearNotice,
    Login.setLoading, setLoadingWith]

/-- The submit handler of the registration form once validation passes: the
notice is cleared, the button is set to loading, and `postJson` runs for
`/register` with the default timeout inside the try, catch and finally blocks. -/
theorem register_onSubmit_valid (p : Platform) (t : Transport) (nv ev pv : Option String)
    (w : World)
    (hvalid : Register.validationErrors p (Register.normalizeSpaces p nv)
      (p.toLowerCase (Register.normalizeSpaces p ev)) (pv.getD "") = []) :
    Register.onSubmit p t nv ev pv w =
      tryFinally
        (tryCatch
          (do
            let _ ← Register.postJson p t (API_BASE ++ "/register")
              (.obj [("name", .str (Register.normalizeSpaces p nv)),
                     ("email", .str (p.toLowerCase (Register.normalizeSpaces p ev))),
                     ("password", .str (pv.getD ""))]) Register.defaultTimeoutMs
            setNotice "success" "Аккаунт создан. Теперь войдите…"
            let _ ← setTimeout (.locationAssign "login.html") 400
            pure ())
          Register.onError)
        (Register.setLoading false)
        (withButton "Creating..." "Create Account" true
          { w with notice := { w.notice with display := "none", text := "" } }) := by
  simp [Register.onSubmit, hvalid, bind, Script.bind, clearNotice,
    Register.setLoading, setLoadingWith]

@[simp] theorem withButton_storage (busy idle : String) (b : Bool) (w : World) :
    (withButton busy idle b w).storage = w.storage := by
  unfold withButton; cases w.submitBtn <;> rfl

@[simp] theorem withButton_calls (busy idle : String) (b : Bool) (w : World) :
    (withButton busy idle b w).calls = w.calls := by
  unfold withButton; cases w.submitBtn <;> rfl

@[simp] theorem withButton_nextHandle (busy idle : String) (b : Bool) (w : World) :
    (withButton busy idle b w).nextHandle = w.nextHandle := by
  unfold withButton; cases w.submitBtn <;> rfl

@[simp] theorem withButton_timers (busy idle : String) (b : Bool) (w : World) :
    (withButton busy idle b w).timers = w.timers := by
  unfold withButton; cases w.submitBtn <;> rfl

@[simp] theorem withButton_notice (busy idle : String) (b : Bool) (w : World) :
    (withButton busy idle b w).notice = w.notice := by
  unfold withButton; cases w.submitBtn <;> rfl

/-- The headers of the one request `postChat` sends for a stored token. -/
theorem header_construction_chat (p : Platform) (t : Transport) (message : String) (w : World)
    (tok : String) (htok : storageGet "access_token" w.storage = some tok) (hne : tok ≠ "") :
    (fetchCalls (Chat.postChat p t message w).2.calls).map Request.headers
      = (fetchCalls w.calls).map Request.headers ++
        [[("Content-Type", "application/json"), ("Authorization", "Bearer " ++ tok)]] := by
  rw [postChat_with_token p t message tok w htok hne]
  cases t (chatRequest tok message) <;>
    simp [record, fetchCalls_append, fetchCalls, chatRequest]

/-- The parse step of the request helpers yields the parsed body of the
specification. -/
theorem parseBody_eq_spec (p : Platform) (text : String) :
    parseBody p text = specParsedBody p text := by
  unfold parseBody specParsedBody
  by_cases h : text = "" <;> cases p.jsonParse text <;> simp [h]

/-- The detail of a response whose body did not parse: the text, or `HTTP s`. -/
theorem extractDetail_null (text : String) (status : Nat) :
    (extractDetail .null text status).jsString
      = some (if text = "" then "HTTP " ++ toString status else text) := by
  by_cases h : text = "" <;>
    simp [extractDetail, JVal.or, JVal.prop, JVal.truthy, JVal.jsString, h]

/-- The method `includes` decides whether the argument is an infix. -/
theorem includesChars_iff (sub l : List Char) : includesChars sub l = true ↔ sub <:+: l := by
  induction l with
  | nil =>
    simp only [includesChars, List.isPrefixOf_iff_prefix, List.prefix_nil, List.infix_nil]
  | cons c cs ih =>
    simp only [includesChars, Bool.or_eq_true, List.isPrefixOf_iff_prefix, ih,
      List.infix_cons_iff]

/-- The function `shouldLogoutOn401` tests the keywords one by one on the
lower-cased string form of `detail || ""`. -/
theorem shouldLogoutOn401_eq_any (p : Platform) (detail : JVal) (text : String)
    (h : (detail.or (.str "")).jsString = some text) :
    Chat.shouldLogoutOn401 p detail =
      some (logoutKeywords.any (fun k => includes (p.toLowerCase text) k)) := by
  simp [Chat.shouldLogoutOn401, h, logoutKeywords, List.any, Bool.or_assoc]

/-- Some keyword is found by `includes` exactly when some keyword is an infix. -/
theorem any_keyword_iff (s : String) :
    logoutKeywords.any (fun k => includes s k) = true ↔
      ∃ k ∈ logoutKeywords, k.data <:+: s.data := by
  simp only [List.any_eq_true, includes, includesChars_iff]

/-- The string forms of the falsy values hold none of the keywords. -/
theorem falsy_forms_hold_no_keyword :
    ∀ s ∈ ["", "undefined", "null", "false", "0"],
      logoutKeywords.any (fun k => includes s k) = false := by
  decide

/-- The string form of a falsy value. -/
theorem falsy_jsString_mem (d : JVal) (h : d.truthy = false) :
    ∃ s ∈ ["", "undefined", "null", "false", "0"], d.jsString = some s := by
  cases d with
  | undefined => exact ⟨"undefined", by simp, by simp [JVal.jsString]⟩
  | null => exact ⟨"null", by simp, by simp [JVal.jsString]⟩
  | bool b =>
    cases b
    · exact ⟨"false", by simp, by simp [JVal.jsString]⟩
    · simp [JVal.truthy] at h
  | num r =>
    have hr : r = "0" := by simpa [JVal.truthy] using h
    exact ⟨"0", by simp, by simp [JVal.jsString, hr]⟩
  | str s =>
    have hs : s = "" := by simpa [JVal.truthy] using h
    exact ⟨"", by simp, by simp [JVal.jsString, hs]⟩
  | arr items => simp [JVal.truthy] at h
  | obj fields => simp [JVal.truthy] at h

/-! ## The claims -/

/-- C1. No-token short-circuit: when `postChat` is called while storage holds no
access_token (the key is absent or holds the empty string), it throws an error
whose status is 401 and whose body detail is `missing_token`; the only platform
call it makes is the read of the token, so fetch is called zero times. -/
theorem postChat_no_token_short_circuit (p : Platform) (t : Transport) (message : String)
    (w : World)
    (h : storageGet "access_token" w.storage = none ∨
         storageGet "access_token" w.storage = some "") :
    (∃ e, (Chat.postChat p t message w).1 = .threw e ∧ e.status = some 401 ∧
      e.body.prop "detail" = .str "missing_token") ∧
    (Chat.postChat p t message w).2.calls = w.calls ++ [.getItem "access_token"] ∧
    fetchCalls (Chat.postChat p t message w).2.calls = fetchCalls w.calls := by
  rw [postChat_without_token p t message w h]
  refine ⟨⟨_, rfl, rfl, ?_⟩, rfl, ?_⟩
  · simp [JVal.prop, lookupField]
  · simp [record, fetchCalls_append, fetchCalls]

/-- Instance of C1: a page with empty storage and a network that would answer 200. -/
theorem postChat_no_token_short_circuit_witness :
    storageGet "access_token" emptyWorld.storage = none ∧
    fetchCalls (Chat.postChat fixturePlatform
      (fun _ => .responds { status := 200, text := "" }) "hello" emptyWorld).2.calls = [] :=
  ⟨rfl, (postChat_no_token_short_circuit fixturePlatform
      (fun _ => .responds { status := 200, text := "" }) "hello" emptyWorld (Or.inl rfl)).2.2⟩

/-- C2, as stated, fails: for the response 422 with body `{"detail":[]}` the
detail field is an empty array, so the first present and non-empty candidate is
the raw text; yet the errors `postJson` and `postChat` raise carry the empty
string as their message. -/
theorem detail_precedence_counterexample :
    specDetail (parseBody fixturePlatform emptyListDetailBody) emptyListDetailBody 422
      = some emptyListDetailBody ∧
    emptyListDetailBody ≠ "" ∧
    (Login.postJson fixturePlatform
      (fun _ => .responds { status := 422, text := emptyListDetailBody })
      "http://127.0.0.1:8000/login" .null 15000 emptyWorld).1
      = .threw { name := "Error", message := "", status := some 422, body := .undefined } ∧
    (Register.postJson fixturePlatform
      (fun _ => .responds { status := 422, text := emptyListDetailBody })
      "http://127.0.0.1:8000/register" .null 15000 emptyWorld).1
      = .threw { name := "Error", message := "", status := some 422, body := .undefined } ∧
    (Chat.postChat fixturePlatform
      (fun _ => .responds { status := 422, text := emptyListDetailBody })
      "hello" tokenWorld).1
      = .threw { name := "Error", message := "", status := some 422,
                 body := .obj [("detail", .arr [])] } := by
  refine ⟨by decide, by decide, rfl, rfl, rfl⟩

/-- C2, amended. Take a response that is not ok, with status s and body text t,
and the first truthy value among the detail field of the parsed body, its
message field and the raw text t, or else the literal `HTTP s`. Whenever that
value has a string form, the error raised by both `postJson`, on any page, and
by `postChat`, on a page holding a token, has status s and that string form as
its message. When the two fields are each absent or a string, the value has a
string form, and it is the first of the candidates that is present and
non-empty. -/
theorem detail_precedence (p : Platform) (t : Transport) (resp : Response)
    (url : String) (payload : JVal) (timeoutMs : Nat) (message : String) (w : World)
    (hresp : ∀ req, t req = .responds resp) (hok : resp.ok = false) :
    (∀ s, (firstTruthy [(parseBody p resp.text).prop "detail",
        (parseBody p resp.text).prop "message", .str resp.text]
        (.str ("HTTP " ++ toString resp.status))).jsString = some s →
      (Login.postJson p t url payload timeoutMs w).1 = .threw
        { name := "Error", message := s, status := some resp.status, body := .undefined } ∧
      (Register.postJson p t url payload timeoutMs w).1 = .threw
        { name := "Error", message := s, status := some resp.status, body := .undefined } ∧
      (∀ tok, storageGet "access_token" w.storage = some tok → tok ≠ "" →
        (Chat.postChat p t message w).1 = .threw
          { name := "Error", message := s, status := some resp.status,
            body := (parseBody p resp.text).coalesce (.str resp.text) })) ∧
    (absentOrString ((parseBody p resp.text).prop "detail") →
      absentOrString ((parseBody p resp.text).prop "message") →
      (firstTruthy [(parseBody p resp.text).prop "detail",
        (parseBody p resp.text).prop "message", .str resp.text]
        (.str ("HTTP " ++ toString resp.status))).jsString
        = specDetail (parseBody p resp.text) resp.text resp.status ∧
      ∃ s, specDetail (parseBody p resp.text) resp.text resp.status = some s) := by
  refine ⟨fun s hs => ⟨?_, ?_, fun tok htok hne => ?_⟩, firstTruthy_eq_specDetail _ _ _⟩
  · obtain ⟨ts, h⟩ := login_postJson_eq p t url payload timeoutMs w
    rw [← extractDetail_eq_firstTruthy] at hs
    rw [h, hresp]
    simp [postJsonCompletion, hok, httpFailure, hs]
  · obtain ⟨ts, h⟩ := register_postJson_eq p t url payload timeoutMs w
    rw [← extractDetail_eq_firstTruthy] at hs
    rw [h, hresp]
    simp [postJsonCompletion, hok, httpFailure, hs]
  · rw [← extractDetail_eq_firstTruthy] at hs
    rw [postChat_with_token p t message tok w htok hne, hresp]
    simp [hok, httpFailure, hs]

/-- Instances of C2 as amended: the bodies `{"detail":"a"}`, `{"message":"b"}`,
the plain text `c` and the empty body with status 500 give the messages `a`,
`b`, `c` and `HTTP 500`; the two `postJson` run on a page without a token. -/
theorem detail_precedence_witness :
    (Chat.postChat fixturePlatform
        (fun _ => .responds { status := 400, text := detailBody }) "hello" tokenWorld).1
        = .threw { name := "Error", message := "a", status := some 400,
                   body := .obj [("detail", .str "a")] } ∧
    (Login.postJson fixturePlatform
        (fun _ => .responds { status := 400, text := messageBody }) "/login" .null 15000
        emptyWorld).1
        = .threw { name := "Error", message := "b", status := some 400, body := .undefined } ∧
    (Register.postJson fixturePlatform
        (fun _ => .responds { status := 400, text := "c" }) "/register" .null 15000
        emptyWorld).1
        = .threw { name := "Error", message := "c", status := some 400, body := .undefined } ∧
    (Login.postJson fixturePlatform
        (fun _ => .responds { status := 500, text := "" }) "/login" .null 15000
        emptyWorld).1
        = .threw { name := "Error", message := "HTTP 500", status := some 500,
                   body := .undefined } :=
  ⟨((detail_precedence fixturePlatform
      (fun _ => .responds { status := 400, text := detailBody })
      { status := 400, text := detailBody }
      "/login" .null 15000 "hello" tokenWorld (fun _ => rfl) rfl).1 "a" (by decide)).2.2
      "T" rfl (by decide),
   ((detail_precedence fixturePlatform
      (fun _ => .responds { status := 400, text := messageBody })
      { status := 400, text := messageBody }
      "/login" .null 15000 "hello" emptyWorld (fun _ => rfl) rfl).1 "b" (by decide)).1,
   ((detail_precedence fixturePlatform
      (fun _ => .responds { status := 400, text := "c" }) { status := 400, text := "c" }
      "/register" .null 15000 "hello" emptyWorld (fun _ => rfl) rfl).1 "c" (by decide)).2.1,
   ((detail_precedence fixturePlatform
      (fun _ => .responds { status := 500, text := "" }) { status := 500, text := "" }
      "/login" .null 15000 "hello" emptyWorld (fun _ => rfl) rfl).1 "HTTP 500"
      (by decide)).1⟩

/-- C3. Unconditional 401 logout: whenever `postChat` throws an error whose
status is 401, whatever its message and body, the submit handler of the chat
removes access_token from storage and schedules, with a delay of 400 ms, the
navigation to `login.html?reason=401`. -/
theorem chat_unconditional_401_logout (p : Platform) (t : Transport) (w : World) (v : String)
    (e : JsError) (hin : w.input = some v) (hmsg : p.trim v ≠ "")
    (hthrow : (Chat.postChat p t (p.trim v) w).1 = .threw e) (h401 : e.status = some 401) :
    (Chat.onSubmit p t w).1 = .returned () ∧
    (Chat.onSubmit p t w).2.storage = storageRemove "access_token" w.storage ∧
    storageGet "access_token" (Chat.onSubmit p t w).2.storage = none ∧
    (Chat.onSubmit p t w).2.timers = w.timers ++
      [{ handle := w.nextHandle, delay := 400,
         action := .locationReplace "login.html?reason=401" }] ∧
    (Chat.onSubmit p t w).2.calls = (Chat.postChat p t (p.trim v) w).2.calls ++
      [.consoleError e, .removeItem "access_token",
       .setTimeout w.nextHandle 400 (.locationReplace "login.html?reason=401")] := by
  obtain ⟨d, hd, hshow⟩ := postChat_error_detail p t (p.trim v) w e hthrow
  obtain ⟨s, hs⟩ := hshow "401"
  rw [chat_onSubmit_threw p t w v e hin hmsg hthrow, chat_onError_401 e d s _ hd hs h401]
  obtain ⟨c, cs, hframe⟩ := postChat_frame p t (p.trim v) w
  rw [hframe w rfl]
  simp [storageGet_remove]

/-- Instance of C3: a 401 whose detail is `rate limited`, which holds none of
the keywords of `shouldLogoutOn401`, still clears the token and schedules the
navigation. -/
theorem chat_unconditional_401_logout_witness :
    Chat.shouldLogoutOn401 fixturePlatform (.str "rate limited") = some false ∧
    storageGet "access_token" tokenWorld.storage = some "T" ∧
    storageGet "access_token" (Chat.onSubmit fixturePlatform
      (fun _ => .responds { status := 401, text := "rate limited" }) tokenWorld).2.storage
      = none ∧
    (Chat.onSubmit fixturePlatform
      (fun _ => .responds { status := 401, text := "rate limited" }) tokenWorld).2.timers
      = [{ handle := 0, delay := 400, action := .locationReplace "login.html?reason=401" }] :=
  ⟨by decide, rfl,
   (chat_unconditional_401_logout fixturePlatform
      (fun _ => .responds { status := 401, text := "rate limited" }) tokenWorld "hello"
      { name := "Error", message := "rate limited", status := some 401,
        body := .str "rate limited" }
      rfl (by decide) rfl rfl).2.2.1,
   (chat_unconditional_401_logout fixturePlatform
      (fun _ => .responds { status := 401, text := "rate limited" }) tokenWorld "hello"
      { name := "Error", message := "rate limited", status := some 401,
        body := .str "rate limited" }
      rfl (by decide) rfl rfl).2.2.2.1⟩

/-- C4. Whenever `postChat` throws an error whose status is not 401 (another
HTTP status, or no status at all as for a network failure), the submit handler
of the chat returns, leaves storage, the pending timers and the handle counter
as they were, makes no platform call after those of `postChat` other than
`console.error`, and appends to the chat, after the bubble of the user, exactly
one bubble: the error message, built from the detail of the error. -/
theorem chat_other_error_display_only (p : Platform) (t : Transport) (w : World) (v : String)
    (e : JsError) (hin : w.input = some v) (hmsg : p.trim v ≠ "")
    (hthrow : (Chat.postChat p t (p.trim v) w).1 = .threw e) (hst : e.status ≠ some 401) :
    (Chat.onSubmit p t w).1 = .returned () ∧
    (Chat.onSubmit p t w).2.storage = w.storage ∧
    (Chat.onSubmit p t w).2.timers = w.timers ∧
    (Chat.onSubmit p t w).2.nextHandle = w.nextHandle ∧
    (Chat.onSubmit p t w).2.calls =
      (Chat.postChat p t (p.trim v) w).2.calls ++ [.consoleError e] ∧
    ∃ d s, Chat.errorDetail e = some d ∧
      (d.or (.str "unknown error")).jsString = some s ∧
      (Chat.onSubmit p t w).2.messages = w.messages.map (fun ms => ms ++
        [{ role := "user-message", text := p.trim v },
         { role := "ai-message", text := "Ошибка: " ++ s }]) := by
  obtain ⟨d, hd, hshow⟩ := postChat_error_detail p t (p.trim v) w e hthrow
  obtain ⟨s, hs⟩ := hshow "unknown error"
  rw [chat_onSubmit_threw p t w v e hin hmsg hthrow, chat_onError_other e d s _ hd hs hst]
  obtain ⟨c, cs, hframe⟩ := postChat_frame p t (p.trim v) w
  rw [hframe w rfl]
  refine ⟨rfl, rfl, rfl, rfl, rfl, d, s, hd, hs, ?_⟩
  cases w.messages <;> simp

/-- Instance of C4: a 500 with an empty body leaves the token `T` in storage and
no timer pending, and shows `Ошибка: HTTP 500`. -/
theorem chat_other_error_display_only_witness :
    (Chat.onSubmit fixturePlatform
      (fun _ => .responds { status := 500, text := "" }) tokenWorld).2.storage
      = [("access_token", "T")] ∧
    (Chat.onSubmit fixturePlatform
      (fun _ => .responds { status := 500, text := "" }) tokenWorld).2.timers = [] ∧
    (Chat.onSubmit fixturePlatform
      (fun _ => .responds { status := 500, text := "" }) tokenWorld).2.messages
      = some [{ role := "user-message", text := "hello" },
              { role := "ai-message", text := "Ошибка: HTTP 500" }] :=
  ⟨(chat_other_error_display_only fixturePlatform
      (fun _ => .responds { status := 500, text := "" }) tokenWorld "hello"
      { name := "Error", message := "HTTP 500", status := some 500, body := .str "" }
      rfl (by decide) rfl (by decide)).2.1,
   (chat_other_error_display_only fixturePlatform
      (fun _ => .responds { status := 500, text := "" }) tokenWorld "hello"
      { name := "Error", message := "HTTP 500", status := some 500, body := .str "" }
      rfl (by decide) rfl (by decide)).2.2.1,
   rfl⟩

/-- C5, as stated, fails: with the token `T` in storage, the requests that
`postJson` of login.js and of register.js send carry the Content-Type header
alone, and no Authorization header. -/
theorem header_construction_counterexample :
    storageGet "access_token" tokenWorld.storage = some "T" ∧
    (fetchCalls (Login.postJson fixturePlatform
      (fun _ => .responds { status := 200, text := "" })
      "http://127.0.0.1:8000/login" .null 15000 tokenWorld).2.calls).map Request.headers
      = [[("Content-Type", "application/json")]] ∧
    (fetchCalls (Register.postJson fixturePlatform
      (fun _ => .responds { status := 200, text := "" })
      "http://127.0.0.1:8000/register" .null 15000 tokenWorld).2.calls).map Request.headers
      = [[("Content-Type", "application/json")]] :=
  ⟨rfl, rfl, rfl⟩

/-- C5, amended. Every run of the three request helpers that reaches the
network sends exactly one request. The request of `postJson`, in login.js and in
register.js, carries the single header `Content-Type: application/json`,
whatever storage holds. The request of `postChat` carries that header and
`Authorization: Bearer` followed by the token read from storage at call time. -/
theorem header_construction (p : Platform) (t : Transport) (url : String) (payload : JVal)
    (timeoutMs : Nat) (message : String) (w : World) :
    (fetchCalls (Login.postJson p t url payload timeoutMs w).2.calls).map Request.headers
      = (fetchCalls w.calls).map Request.headers ++ [[("Content-Type", "application/json")]] ∧
    (fetchCalls (Register.postJson p t url payload timeoutMs w).2.calls).map Request.headers
      = (fetchCalls w.calls).map Request.headers ++ [[("Content-Type", "application/json")]] ∧
    (∀ tok, storageGet "access_token" w.storage = some tok → tok ≠ "" →
      (fetchCalls (Chat.postChat p t message w).2.calls).map Request.headers
        = (fetchCalls w.calls).map Request.headers ++
          [[("Content-Type", "application/json"), ("Authorization", "Bearer " ++ tok)]]) := by
  refine ⟨?_, ?_, ?_⟩
  · obtain ⟨ts, h⟩ := login_postJson_eq p t url payload timeoutMs w
    rw [h]
    simp [postJsonCalls, fetchCalls_append, fetchCalls, loginRequest]
  · obtain ⟨ts, h⟩ := register_postJson_eq p t url payload timeoutMs w
    rw [h]
    simp [postJsonCalls, fetchCalls_append, fetchCalls, registerRequest]
  · intro tok htok hne
    exact header_construction_chat p t message w tok htok hne

/-- Instance of C5 as amended: with the token `T` in storage the chat request
carries `Authorization: Bearer T`. -/
theorem header_construction_witness :
    storageGet "access_token" tokenWorld.storage = some "T" ∧
    (fetchCalls (Chat.postChat fixturePlatform
      (fun _ => .responds { status := 200, text := "" }) "hello" tokenWorld).2.calls).map
        Request.headers
      = [[("Content-Type", "application/json"), ("Authorization", "Bearer T")]] :=
  ⟨rfl, (header_construction fixturePlatform
      (fun _ => .responds { status := 200, text := "" }) "/login" .null 15000 "hello"
      tokenWorld).2.2 "T" rfl (by decide)⟩

/-- C6, as stated, fails: `postChat` arms no timer and gives its request no
abort signal; with the token `T` in storage and a network that never answers,
it makes the two calls getItem and fetch and never settles. -/
theorem deadline_counterexample :
    (Chat.postChat fixturePlatform (fun _ => .hangs) "hello" tokenWorld).1 = .pending ∧
    (Chat.postChat fixturePlatform (fun _ => .hangs) "hello" tokenWorld).2.calls
      = [.getItem "access_token", .fetch (chatRequest "T" "hello")] ∧
    (chatRequest "T" "hello").signal = none ∧
    (Chat.postChat fixturePlatform (fun _ => .hangs) "hello" tokenWorld).2.timers = [] :=
  ⟨rfl, rfl, rfl, rfl⟩

/-- C6, amended. Every run of `postJson`, in login.js and in register.js, first
arms a timer of `timeoutMs` whose callback aborts a fresh controller, then sends
its one request with the signal of that controller, and clears the timer when
the request settles; when the network never answers, the run ends by throwing
an AbortError. The submit handlers pass the default of 15000 ms, which is
positive: a login with both fields filled, and a registration that passes
validation, end with the timeout notice when the request is never answered.
Every run of `postChat` leaves the pending timers and the handle counter as they
were and makes no call other than the read of the token and, with a token, the
one fetch, whose request has no signal; when the network never answers that
request, `postChat` never settles. -/
theorem postJson_deadline_bound (p : Platform) (url : String) (payload : JVal)
    (timeoutMs : Nat) (w : World) :
    (∀ t : Transport,
      (Login.postJson p t url payload timeoutMs w).2.calls = w.calls ++
        [.setTimeout (w.nextHandle + 1) timeoutMs (.abort w.nextHandle),
         .fetch (loginRequest url payload w.nextHandle),
         .clearTimeout (w.nextHandle + 1)] ∧
      (Register.postJson p t url payload timeoutMs w).2.calls = w.calls ++
        [.setTimeout (w.nextHandle + 1) timeoutMs (.abort w.nextHandle),
         .fetch (registerRequest url payload w.nextHandle),
         .clearTimeout (w.nextHandle + 1)]) ∧
    (loginRequest url payload w.nextHandle).signal = some w.nextHandle ∧
    (registerRequest url payload w.nextHandle).signal = some w.nextHandle ∧
    (∀ t : Transport, t (loginRequest url payload w.nextHandle) = .hangs →
      (Login.postJson p t url payload timeoutMs w).1 = .threw abortError) ∧
    (∀ t : Transport, t (registerRequest url payload w.nextHandle) = .hangs →
      (Register.postJson p t url payload timeoutMs w).1 = .threw abortError) ∧
    Login.defaultTimeoutMs = 15000 ∧ Register.defaultTimeoutMs = 15000 ∧
    (∀ (t : Transport) (ev pv : Option String),
      p.toLowerCase (p.trim (ev.getD "")) ≠ "" → pv.getD "" ≠ "" → (∀ req, t req = .hangs) →
      (Login.onSubmit p t ev pv w).1 = .returned () ∧
      (Login.onSubmit p t ev pv w).2.notice =
        { display := "block", text := "Сервер не отвечает (таймаут).", color := "#b42318" } ∧
      (Login.onSubmit p t ev pv w).2.calls = w.calls ++
        [.setTimeout (w.nextHandle + 1) 15000 (.abort w.nextHandle),
         .fetch (loginRequest (API_BASE ++ "/login")
           (.obj [("email", .str (p.toLowerCase (p.trim (ev.getD "")))),
                  ("password", .str (pv.getD ""))]) w.nextHandle),
         .clearTimeout (w.nextHandle + 1), .consoleError abortError]) ∧
    (∀ (t : Transport) (nv ev pv : Option String),
      Register.validationErrors p (Register.normalizeSpaces p nv)
        (p.toLowerCase (Register.normalizeSpaces p ev)) (pv.getD "") = [] →
      (∀ req, t req = .hangs) →
      (Register.onSubmit p t nv ev pv w).1 = .returned () ∧
      (Register.onSubmit p t nv ev pv w).2.notice =
        { display := "block",
          text := "Сервер не отвечает (таймаут). Проверь backend на 127.0.0.1:8000.",
          color := "#b42318" } ∧
      (Register.onSubmit p t nv ev pv w).2.calls = w.calls ++
        [.setTimeout (w.nextHandle + 1) 15000 (.abort w.nextHandle),
         .fetch (registerRequest (API_BASE ++ "/register")
           (.obj [("name", .str (Register.normalizeSpaces p nv)),
                  ("email", .str (p.toLowerCase (Register.normalizeSpaces p ev))),
                  ("password", .str (pv.getD ""))]) w.nextHandle),
         .clearTimeout (w.nextHandle + 1), .consoleError abortError]) ∧
    (∀ (t : Transport) (message : String),
      (Chat.postChat p t message w).2.timers = w.timers ∧
      (Chat.postChat p t message w).2.nextHandle = w.nextHandle ∧
      ((Chat.postChat p t message w).2.calls = w.calls ++ [.getItem "access_token"] ∨
       ∃ tok, (Chat.postChat p t message w).2.calls
          = w.calls ++ [.getItem "access_token", .fetch (chatRequest tok message)]) ∧
      (∀ tok, (chatRequest tok message).signal = none) ∧
      (∀ tok, storageGet "access_token" w.storage = some tok → tok ≠ "" →
        t (chatRequest tok message) = .hangs →
        (Chat.postChat p t message w).1 = .pending ∧
        (Chat.postChat p t message w).2.calls
          = w.calls ++ [.getItem "access_token", .fetch (chatRequest tok message)])) := by
  refine ⟨fun t => ⟨?_, ?_⟩, rfl, rfl, fun t ht => ?_, fun t ht => ?_, rfl, rfl,
    fun t ev pv hemail hpass hhang => ?_, fun t nv ev pv hvalid hhang => ?_,
    fun t message => ?_⟩
  · obtain ⟨ts, h⟩ := login_postJson_eq p t url payload timeoutMs w
    rw [h]; rfl
  · obtain ⟨ts, h⟩ := register_postJson_eq p t url payload timeoutMs w
    rw [h]; rfl
  · obtain ⟨ts, h⟩ := login_postJson_eq p t url payload timeoutMs w
    rw [h, ht]; rfl
  · obtain ⟨ts, h⟩ := register_postJson_eq p t url payload timeoutMs w
    rw [h, ht]; rfl
  · rw [login_onSubmit_filled p t ev pv w hemail hpass]
    obtain ⟨ts, h⟩ := login_postJson_eq p t (API_BASE ++ "/login")
      (.obj [("email", .str (p.toLowerCase (p.trim (ev.getD "")))),
             ("password", .str (pv.getD ""))]) Login.defaultTimeoutMs
      (withButton "Signing in..." "Sign In" true
          { w with notice := { w.notice with display := "none", text := "" } })
    simp only [tryFinally, tryCatch, bind, Script.bind, h, hhang, postJsonCompletion]
    simp [Login.onError, abortError, bind, Script.bind, setNotice,
      consoleError, record, Login.setLoading, setLoadingWith,
      noticeColor, postJsonCalls, Login.defaultTimeoutMs]
  · rw [register_onSubmit_valid p t nv ev pv w hvalid]
    obtain ⟨ts2, h2⟩ := register_postJson_eq p t (API_BASE ++ "/register")
      (.obj [("name", .str (Register.normalizeSpaces p nv)),
             ("email", .str (p.toLowerCase (Register.normalizeSpaces p ev))),
             ("password", .str (pv.getD ""))]) Register.defaultTimeoutMs
      (withButton "Creating..." "Create Account" true
          { w with notice := { w.notice with display := "none", text := "" } })
    simp only [tryFinally, tryCatch, bind, Script.bind, h2, hhang, postJsonCompletion]
    simp [Register.onError, abortError, bind, Script.bind, setNotice,
      consoleError, record, Register.setLoading, setLoadingWith,
      noticeColor, postJsonCalls, Register.defaultTimeoutMs]
  · have hmissing : storageGet "access_token" w.storage = none ∨
        storageGet "access_token" w.storage = some "" →
        (Chat.postChat p t message w).2.timers = w.timers ∧
        (Chat.postChat p t message w).2.nextHandle = w.nextHandle ∧
        ((Chat.postChat p t message w).2.calls = w.calls ++ [.getItem "access_token"] ∨
         ∃ tok, (Chat.postChat p t message w).2.calls
            = w.calls ++ [.getItem "access_token", .fetch (chatRequest tok message)]) := by
      intro h
      rw [postChat_without_token p t message w h]
      exact ⟨rfl, rfl, Or.inl rfl⟩
    have hpresent : ∀ tok, storageGet "access_token" w.storage = some tok → tok ≠ "" →
        (Chat.postChat p t message w).2.timers = w.timers ∧
        (Chat.postChat p t message w).2.nextHandle = w.nextHandle ∧
        (Chat.postChat p t message w).2.calls
          = w.calls ++ [.getItem "access_token", .fetch (chatRequest tok message)] := by
      intro tok htok hne
      rw [postChat_with_token p t message tok w htok hne]
      cases t (chatRequest tok message) <;> simp [record]
    refine ⟨?_, ?_, ?_, fun tok => rfl, fun tok htok hne hhang => ?_⟩
    · cases hget : storageGet "access_token" w.storage with
      | none => exact (hmissing (Or.inl hget)).1
      | some tok =>
        by_cases hne : tok = ""
        · exact (hmissing (Or.inr (by rw [hget, hne]))).1
        · exact (hpresent tok hget hne).1
    · cases hget : storageGet "access_token" w.storage with
      | none => exact (hmissing (Or.inl hget)).2.1
      | some tok =>
        by_cases hne : tok = ""
        · exact (hmissing (Or.inr (by rw [hget, hne]))).2.1
        · exact (hpresent tok hget hne).2.1
    · cases hget : storageGet "access_token" w.storage with
      | none => exact (hmissing (Or.inl hget)).2.2
      | some tok =>
        by_cases hne : tok = ""
        · exact (hmissing (Or.inr (by rw [hget, hne]))).2.2
        · exact Or.inr ⟨tok, (hpresent tok hget hne).2.2⟩
    · refine ⟨?_, (hpresent tok htok hne).2.2⟩
      rw [postChat_with_token p t message tok w htok hne, hhang]

/-- Instance of C6 as amended: a login with the short password `pass`, which the
registration form would refuse, and a registration, both on a network that never
answers; and a chat request, with the token `T`, that never settles. -/
theorem postJson_deadline_bound_witness :
    Register.validationErrors fixturePlatform "Ivan Petrov" "ivan@example.com" "pass" ≠ [] ∧
    (Login.onSubmit fixturePlatform (fun _ => .hangs) (some "ivan@example.com")
      (some "pass") emptyWorld).2.notice.text = "Сервер не отвечает (таймаут)." ∧
    Register.validationErrors fixturePlatform "Ivan Petrov" "ivan@example.com" "password1"
      = [] ∧
    (Register.onSubmit fixturePlatform (fun _ => .hangs) (some "Ivan Petrov")
      (some "ivan@example.com") (some "password1") emptyWorld).2.notice.text
      = "Сервер не отвечает (таймаут). Проверь backend на 127.0.0.1:8000." ∧
    (Chat.postChat fixturePlatform (fun _ => .hangs) "hello" tokenWorld).1 = .pending :=
  ⟨by decide,
   congrArg Notice.text ((postJson_deadline_bound fixturePlatform "/login" .null 50
      emptyWorld).2.2.2.2.2.2.2.1 (fun _ => .hangs) (some "ivan@example.com") (some "pass")
      (by decide) (by decide) (fun _ => rfl)).2.1,
   by decide,
   congrArg Notice.text ((postJson_deadline_bound fixturePlatform "/login" .null 50
      emptyWorld).2.2.2.2.2.2.2.2.1 (fun _ => .hangs) (some "Ivan Petrov")
      (some "ivan@example.com") (some "password1") (by decide) (fun _ => rfl)).2.1,
   ((postJson_deadline_bound fixturePlatform "/login" .null 50
      tokenWorld).2.2.2.2.2.2.2.2.2 (fun _ => .hangs) "hello").2.2.2.2 "T" rfl (by decide)
      rfl |>.1⟩

/-- C7. Login-to-chat round trip: when `/login` answers 2xx with a body whose
parsed access_token is the non-empty string T, the login handler leaves T stored
under access_token; the next `postChat`, on any page whose storage is the one
the handler left, sends exactly one request, with the headers Content-Type and
`Authorization: Bearer T`; reading the token after storing T yields T, and after
removing it yields null. -/
theorem login_chat_round_trip (p : Platform) (t : Transport) (ev pv : Option String)
    (w : World) (resp : Response) (T : String)
    (hemail : p.toLowerCase (p.trim (ev.getD "")) ≠ "") (hpass : pv.getD "" ≠ "")
    (hresp : ∀ req, t req = .responds resp) (hok : resp.ok = true)
    (hbody : (parseBody p resp.text).prop "access_token" = .str T) (hT : T ≠ "") :
    storageGet "access_token" (Login.onSubmit p t ev pv w).2.storage = some T ∧
    (∀ (p2 : Platform) (t2 : Transport) (message : String) (w2 : World),
      w2.storage = (Login.onSubmit p t ev pv w).2.storage →
      (fetchCalls (Chat.postChat p2 t2 message w2).2.calls).map Request.headers
        = (fetchCalls w2.calls).map Request.headers ++
          [[("Content-Type", "application/json"), ("Authorization", "Bearer " ++ T)]]) ∧
    (∀ w3 : World,
      (getItem "access_token" (setItem "access_token" (.str T) w3).2).1 = .returned (.str T)) ∧
    (∀ w3 : World,
      (getItem "access_token" (removeItem "access_token" w3).2).1 = .returned .null) := by
  have hstore : storageGet "access_token" (Login.onSubmit p t ev pv w).2.storage = some T := by
    rw [login_onSubmit_filled p t ev pv w hemail hpass]
    obtain ⟨ts, h⟩ := login_postJson_eq p t (API_BASE ++ "/login")
      (.obj [("email", .str (p.toLowerCase (p.trim (ev.getD "")))),
             ("password", .str (pv.getD ""))]) Login.defaultTimeoutMs
      (withButton "Signing in..." "Sign In" true
          { w with notice := { w.notice with display := "none", text := "" } })
    simp only [tryFinally, tryCatch, bind, Script.bind, h, hresp, postJsonCompletion, hok,
      if_true, hbody]
    simp [JVal.truthy, hT, setItem, setNotice, setTimeout, record, pure, Login.setLoading,
      setLoadingWith, jsString_str, storageGet_set, bind, Script.bind]
  refine ⟨hstore, ?_, ?_, ?_⟩
  · intro p2 t2 message w2 h2
    exact (header_construction_chat p2 t2 message w2 T (by rw [h2, hstore]) hT)
  · intro w3
    simp [getItem, setItem, record, jsString_str, storageGet_set]
  · intro w3
    simp [getItem, removeItem, record, storageGet_remove]

/-- Instance of C7: `/login` answers 200 with the body `{"access_token":"T"}`. -/
theorem login_chat_round_trip_witness :
    (parseBody fixturePlatform tokenBody).prop "access_token" = .str "T" ∧
    storageGet "access_token" (Login.onSubmit fixturePlatform
      (fun _ => .responds { status := 200, text := tokenBody })
      (some "ivan@example.com") (some "password1") emptyWorld).2.storage = some "T" :=
  ⟨rfl, (login_chat_round_trip fixturePlatform
      (fun _ => .responds { status := 200, text := tokenBody })
      (some "ivan@example.com") (some "password1") emptyWorld
      { status := 200, text := tokenBody } "T"
      (by decide) (by decide) (fun _ => rfl) rfl rfl (by decide)).1⟩

/-- C8. Success and parse rule: for every response whose status is in
[200,300) and every body text, both `postJson`, on any page, and `postChat`, on
a page holding a token, return the JSON-decoded body, or null when the text is
empty or is not valid JSON. When the text does not decode, no status makes the
helpers raise a decode error: below 200 or from 300 on they raise the HTTP
error, with the status of the response and the text, or `HTTP s`, as its
message. -/
theorem success_and_parse_rule (p : Platform) (t : Transport) (resp : Response)
    (url : String) (payload : JVal) (timeoutMs : Nat) (message : String) (w : World)
    (hresp : ∀ req, t req = .responds resp) :
    (200 ≤ resp.status ∧ resp.status < 300 →
      (Login.postJson p t url payload timeoutMs w).1 = .returned (specParsedBody p resp.text) ∧
      (Register.postJson p t url payload timeoutMs w).1
        = .returned (specParsedBody p resp.text) ∧
      (∀ tok, storageGet "access_token" w.storage = some tok → tok ≠ "" →
        (Chat.postChat p t message w).1 = .returned (specParsedBody p resp.text))) ∧
    (resp.text = "" ∨ p.jsonParse resp.text = none → specParsedBody p resp.text = .null) ∧
    (∀ v, resp.text ≠ "" → p.jsonParse resp.text = some v → specParsedBody p resp.text = v) ∧
    (p.jsonParse resp.text = none → ¬ (200 ≤ resp.status ∧ resp.status < 300) →
      (Login.postJson p t url payload timeoutMs w).1 = .threw
        { name := "Error",
          message := if resp.text = "" then "HTTP " ++ toString resp.status else resp.text,
          status := some resp.status, body := .undefined } ∧
      (Register.postJson p t url payload timeoutMs w).1 = .threw
        { name := "Error",
          message := if resp.text = "" then "HTTP " ++ toString resp.status else resp.text,
          status := some resp.status, body := .undefined } ∧
      (∀ tok, storageGet "access_token" w.storage = some tok → tok ≠ "" →
        (Chat.postChat p t message w).1 = .threw
          { name := "Error",
            message := if resp.text = "" then "HTTP " ++ toString resp.status else resp.text,
            status := some resp.status, body := .str resp.text })) := by
  obtain ⟨ts, hl⟩ := login_postJson_eq p t url payload timeoutMs w
  obtain ⟨ts2, hr⟩ := register_postJson_eq p t url payload timeoutMs w
  rw [hl, hr, hresp, hresp]
  refine ⟨?_, ?_, ?_, ?_⟩
  · intro hs
    have hok : resp.ok = true := by simp [Response.ok, hs.1, hs.2]
    refine ⟨by simp [postJsonCompletion, hok, parseBody_eq_spec],
      by simp [postJsonCompletion, hok, parseBody_eq_spec], fun tok htok hne => ?_⟩
    rw [postChat_with_token p t message tok w htok hne, hresp]
    simp [hok, parseBody_eq_spec]
  · rintro (h | h)
    · simp only [specParsedBody, h]
      cases p.jsonParse "" <;> simp
    · simp [specParsedBody, h]
  · intro v hv hp
    simp [specParsedBody, hv, hp]
  · intro hp hs
    have hok : resp.ok = false := by
      simp only [Response.ok]
      by_cases h1 : 200 ≤ resp.status
      · have h2 : ¬ resp.status < 300 := fun h2 => hs ⟨h1, h2⟩
        simp [h1, h2]
      · simp [h1]
    have hnull : parseBody p resp.text = .null := by
      rw [parseBody_eq_spec]; simp [specParsedBody, hp]
    refine ⟨by simp [postJsonCompletion, hok, httpFailure, hnull, extractDetail_null],
      by simp [postJsonCompletion, hok, httpFailure, hnull, extractDetail_null],
      fun tok htok hne => ?_⟩
    rw [postChat_with_token p t message tok w htok hne, hresp]
    simp [hok, httpFailure, hnull, extractDetail_null, JVal.coalesce]

/-- Instance of C8: on a page without a token, a 200 with the body
`{"access_token":"T"}` makes `postJson` return the decoded object, and a 200
with the plain text `c`, which is not valid JSON, makes it return null; on a
page with a token `postChat` returns null for that text too. -/
theorem success_and_parse_rule_witness :
    fixturePlatform.jsonParse "c" = none ∧
    storageGet "access_token" emptyWorld.storage = none ∧
    (Login.postJson fixturePlatform (fun _ => .responds { status := 200, text := tokenBody })
      "/login" .null 15000 emptyWorld).1 = .returned (.obj [("access_token", .str "T")]) ∧
    (Login.postJson fixturePlatform (fun _ => .responds { status := 200, text := "c" })
      "/login" .null 15000 emptyWorld).1 = .returned .null ∧
    (Register.postJson fixturePlatform (fun _ => .responds { status := 200, text := "c" })
      "/register" .null 15000 emptyWorld).1 = .returned .null ∧
    (Chat.postChat fixturePlatform (fun _ => .responds { status := 200, text := "c" })
      "hello" tokenWorld).1 = .returned .null :=
  ⟨rfl, rfl,
   ((success_and_parse_rule fixturePlatform
      (fun _ => .responds { status := 200, text := tokenBody })
      { status := 200, text := tokenBody }
      "/login" .null 15000 "hello" emptyWorld (fun _ => rfl)).1
      ⟨by decide, by decide⟩).1,
   ((success_and_parse_rule fixturePlatform
      (fun _ => .responds { status := 200, text := "c" }) { status := 200, text := "c" }
      "/login" .null 15000 "hello" emptyWorld (fun _ => rfl)).1
      ⟨by decide, by decide⟩).1,
   ((success_and_parse_rule fixturePlatform
      (fun _ => .responds { status := 200, text := "c" }) { status := 200, text := "c" }
      "/register" .null 15000 "hello" emptyWorld (fun _ => rfl)).1
      ⟨by decide, by decide⟩).2.1,
   ((success_and_parse_rule fixturePlatform
      (fun _ => .responds { status := 200, text := "c" }) { status := 200, text := "c" }
      "/login" .null 15000 "hello" tokenWorld (fun _ => rfl)).1
      ⟨by decide, by decide⟩).2.2 "T" rfl (by decide)⟩

/-- C9 fails on the code at one kind of body. For a valid registration answered
409 with the body `{"detail":{"toString":1}}`, `new Error(detail)` throws a
TypeError before the status is attached, so `postJson` throws an error without
status, the test for 409 in the catch block fails, and the notice shows the
message of the TypeError instead of the fixed text. -/
theorem register_conflict_failing_input :
    Register.validationErrors fixturePlatform "Ivan Petrov" "ivan@example.com" "password1"
      = [] ∧
    (Register.postJson fixturePlatform
      (fun _ => .responds { status := 409, text := toStringDetailBody })
      "http://127.0.0.1:8000/register" .null 15000 emptyWorld).1
      = .threw { name := "TypeError", message := "Cannot convert object to primitive value",
                 status := none, body := .undefined } ∧
    (Register.onSubmit fixturePlatform
      (fun _ => .responds { status := 409, text := toStringDetailBody })
      (some "Ivan Petrov") (some "ivan@example.com") (some "password1") emptyWorld).2.notice
      = { display := "block", text := "Cannot convert object to primitive value",
          color := "#b42318" } ∧
    "Cannot convert object to primitive value"
      ≠ "Пользователь уже существует. Перейдите к входу." :=
  ⟨by decide, rfl, rfl, by decide⟩

/-- The behaviour C9 describes, on every 409 whose extracted detail has a string
form (as every detail made of strings has): the submit handler of the
registration form ends with the fixed notice, leaves storage as it was and makes
no storage call. -/
theorem register_conflict_with_string_form (p : Platform) (t : Transport)
    (nv ev pv : Option String) (w : World) (resp : Response) (s : String)
    (hvalid : Register.validationErrors p (Register.normalizeSpaces p nv)
      (p.toLowerCase (Register.normalizeSpaces p ev)) (pv.getD "") = [])
    (hresp : ∀ req, t req = .responds resp) (h409 : resp.status = 409)
    (hs : (extractDetail (parseBody p resp.text) resp.text resp.status).jsString = some s) :
    (Register.onSubmit p t nv ev pv w).1 = .returned () ∧
    (Register.onSubmit p t nv ev pv w).2.notice =
      { display := "block", text := "Пользователь уже существует. Перейдите к входу.",
        color := "#b42318" } ∧
    (Register.onSubmit p t nv ev pv w).2.storage = w.storage ∧
    storageKeys (Register.onSubmit p t nv ev pv w).2.calls = storageKeys w.calls := by
  have hok : resp.ok = false := by simp [Response.ok, h409]
  rw [register_onSubmit_valid p t nv ev pv w hvalid]
  obtain ⟨ts, h⟩ := register_postJson_eq p t (API_BASE ++ "/register")
    (.obj [("name", .str (Register.normalizeSpaces p nv)),
           ("email", .str (p.toLowerCase (Register.normalizeSpaces p ev))),
           ("password", .str (pv.getD ""))]) Register.defaultTimeoutMs
    (withButton "Creating..." "Create Account" true
        { w with notice := { w.notice with display := "none", text := "" } })
  simp only [tryFinally, tryCatch, bind, Script.bind, h, hresp, postJsonCompletion, hok,
    httpFailure, hs]
  simp [Register.onError, bind, Script.bind, setNotice, h409, consoleError, record,
    Register.setLoading, setLoadingWith, noticeColor, storageKeys_append, storageKeys,
    postJsonCalls]

/-- C10. Keyword 401 policy: on a platform whose `toLowerCase` leaves the
lower-case strings `undefined`, `null`, `false`, `0` and the empty string as
they are, `shouldLogoutOn401(detail)` is true exactly when detail has a string
form whose lower-cased text contains one of the seven keywords; it answers for
every detail that has a string form, and throws for the others; hence two
details with the same lower-cased string form get the same answer, and the
answer is false for an undefined, null or empty detail. -/
theorem keyword_401_policy (p : Platform)
    (hfix : ∀ s ∈ ["", "undefined", "null", "false", "0"], p.toLowerCase s = s) :
    (∀ detail : JVal, Chat.shouldLogoutOn401 p detail = some true ↔
      ∃ s, detail.jsString = some s ∧
        ∃ k ∈ logoutKeywords, k.data <:+: (p.toLowerCase s).data) ∧
    (∀ (detail : JVal) (s : String), detail.jsString = some s →
      ∃ b, Chat.shouldLogoutOn401 p detail = some b) ∧
    (∀ detail : JVal, detail.jsString = none → Chat.shouldLogoutOn401 p detail = none) ∧
    (∀ (d1 d2 : JVal) (s1 s2 : String), d1.jsString = some s1 → d2.jsString = some s2 →
      p.toLowerCase s1 = p.toLowerCase s2 →
      Chat.shouldLogoutOn401 p d1 = Chat.shouldLogoutOn401 p d2) ∧
    Chat.shouldLogoutOn401 p .undefined = some false ∧
    Chat.shouldLogoutOn401 p .null = some false ∧
    Chat.shouldLogoutOn401 p (.str "") = some false := by
  have hempty : p.toLowerCase "" = "" := hfix "" (by simp)
  have hfalsy : ∀ d : JVal, d.truthy = false → Chat.shouldLogoutOn401 p d = some false := by
    intro d hd
    have hor : (d.or (.str "")).jsString = some "" := by
      rw [or_falsy d _ hd]; exact jsString_str ""
    rw [shouldLogoutOn401_eq_any p d "" hor, hempty]
    exact congrArg some (falsy_forms_hold_no_keyword "" (by simp))
  have hval : ∀ (detail : JVal) (s : String), detail.jsString = some s →
      Chat.shouldLogoutOn401 p detail
        = some (logoutKeywords.any (fun k => includes (p.toLowerCase s) k)) := by
    intro detail s hs
    cases hd : detail.truthy with
    | true =>
      exact shouldLogoutOn401_eq_any p detail s (by rw [or_truthy detail _ hd]; exact hs)
    | false =>
      obtain ⟨s0, hmem, hs0⟩ := falsy_jsString_mem detail hd
      have : s0 = s := by rw [hs0] at hs; exact Option.some.inj hs
      subst this
      rw [hfalsy detail hd, hfix _ hmem, falsy_forms_hold_no_keyword _ hmem]
  have hnone : ∀ detail : JVal, detail.jsString = none →
      Chat.shouldLogoutOn401 p detail = none := by
    intro detail hn
    cases hd : detail.truthy with
    | true => simp [Chat.shouldLogoutOn401, or_truthy detail _ hd, hn]
    | false =>
      obtain ⟨s0, _, hs0⟩ := falsy_jsString_mem detail hd
      rw [hs0] at hn
      exact absurd hn (by simp)
  refine ⟨fun detail => ?_, fun detail s hs => ⟨_, hval detail s hs⟩, hnone, ?_,
    hfalsy _ rfl, hfalsy _ rfl, hfalsy _ (by simp [JVal.truthy])⟩
  · cases hj : detail.jsString with
    | none => simp [hnone detail hj]
    | some s =>
      rw [hval detail s hj]
      simp only [Option.some.injEq, any_keyword_iff]
      constructor
      · intro h
        exact ⟨s, rfl, h⟩
      · rintro ⟨s2, h2, h⟩
        rw [← h2] at h
        exact h
  · intro d1 d2 s1 s2 h1 h2 h
    rw [hval d1 s1 h1, hval d2 s2 h2, h]

/-- Instance of C10: with ASCII lower-casing, `Token EXPIRED` and `token expired`
are both answered true, `RATE limited` false. -/
theorem keyword_401_policy_witness :
    (∀ s ∈ ["", "undefined", "null", "false", "0"], fixturePlatform.toLowerCase s = s) ∧
    Chat.shouldLogoutOn401 fixturePlatform (.str "Token EXPIRED")
      = Chat.shouldLogoutOn401 fixturePlatform (.str "token expired") ∧
    Chat.shouldLogoutOn401 fixturePlatform (.str "token expired") = some true ∧
    Chat.shouldLogoutOn401 fixturePlatform (.str "RATE limited") = some false :=
  ⟨by decide,
   (keyword_401_policy fixturePlatform (by decide)).2.2.2.1 _ _ "Token EXPIRED"
     "token expired" rfl rfl (by decide),
   by decide, by decide⟩


end Leonid
